import Mathlib

/-!
Shallow embedding of the storefront's wallet / order / promotion core:
`app/db.py` (wallet ledger, order lifecycle, coupon and discount
redemption, cashback, expiry sweeper) together with the admin handlers
`adjust_wallet` and the `action == "status"` branch of `update_order`
from `app/webadmin/server.py`.

Modelling conventions:
* SQLite rows become Lean structures; a table is a `List` of rows, and the
  whole store is the `DB` structure.  `SELECT ... WHERE id=?` with
  `fetchone` is `List.find?`, `UPDATE ... WHERE id=?` is `List.map` with a
  conditional rewrite, `INSERT` appends at the end of the list.
* Money values are `Int` (SQLite INTEGER, Python int: unbounded).
* `created_at` / `updated_at` bookkeeping columns are omitted: no modelled
  logic reads them.  Instants that the logic does compare
  (`await_deadline`, `expires_at`, and the current time) are modelled as
  `Int` time points; ISO-8601 strings with second precision compare
  chronologically, so string comparison in the source is `≤` here.
* Python truthiness on integer columns (`x or 0`, `not x`) is modelled as
  a comparison with `0`; `NULL`-able columns that the logic distinguishes
  are `Option`.
* Python `//` is floor division, so it is `Int.fdiv` here.
-/

namespace BotStore

/-- A row of the `users` table (columns the core logic reads). -/
structure User where
  user_id : Int
  wallet_balance : Int
deriving Repr, DecidableEq

/-- A row of the `orders` table (columns the core logic reads).
`price` is a TEXT column that `create_order` fills with
`str(amount_total)`; the modelled logic only ever reads it through
`int(...)` fallbacks, so it is kept as the numeric content. -/
structure Order where
  id : Int
  user_id : Int
  price : Int
  status : String
  service_code : String
  amount_total : Int
  discount_id : Option Int
  discount_code : String
  discount_amount : Int
  wallet_reserved_amount : Int
  wallet_used_amount : Int
  await_deadline : Option Int
  cashback_percent : Int
  cashback_applied_amount : Int
deriving Repr, DecidableEq

/-- A row of the append-only `wallet_tx` table. -/
structure WalletTx where
  user_id : Int
  order_id : Option Int
  amount : Int
  type : String
  note : String
deriving Repr, DecidableEq

/-- A row of the `coupons` table. -/
structure Coupon where
  id : Int
  code : String
  amount : Int
  usage_limit : Int
  usage_limit_per_user : Int
  used_count : Int
  is_active : Bool
  expires_at : Option Int
deriving Repr, DecidableEq

/-- A row of the `coupon_redemptions` table. -/
structure CouponRedemption where
  id : Int
  coupon_id : Int
  user_id : Int
  amount : Int
  times_used : Int
deriving Repr, DecidableEq

/-- A row of the `discounts` table; `product_ids` is the raw
comma-separated TEXT column. -/
structure Discount where
  id : Int
  code : String
  amount : Int
  usage_limit : Int
  usage_limit_per_user : Int
  used_count : Int
  is_active : Bool
  applies_all : Bool
  product_ids : String
  expires_at : Option Int
deriving Repr, DecidableEq

/-- A row of the `discount_redemptions` table. -/
structure DiscountRedemption where
  id : Int
  discount_id : Int
  user_id : Int
  order_id : Option Int
  amount : Int
  times_used : Int
deriving Repr, DecidableEq

/-- The whole relational store. -/
structure DB where
  users : List User
  orders : List Order
  wallet_tx : List WalletTx
  coupons : List Coupon
  coupon_redemptions : List CouponRedemption
  discounts : List Discount
  discount_redemptions : List DiscountRedemption
deriving Repr, DecidableEq

/-- `get_user`: `SELECT * FROM users WHERE user_id=?` (first row). -/
def get_user (s : DB) (user_id : Int) : Option User :=
  s.users.find? (fun u => u.user_id = user_id)

/-- `get_order`: `SELECT * FROM orders WHERE id=?` (first row). -/
def get_order (s : DB) (order_id : Int) : Option Order :=
  s.orders.find? (fun o => o.id = order_id)

/-- `UPDATE users SET wallet_balance=? WHERE user_id=?`. -/
def update_user_balance (s : DB) (user_id new_bal : Int) : DB :=
  { s with users := s.users.map (fun u =>
      if u.user_id = user_id then { u with wallet_balance := new_bal } else u) }

/-- `INSERT INTO wallet_tx(...)` (append-only). -/
def insert_wallet_tx (s : DB) (t : WalletTx) : DB :=
  { s with wallet_tx := s.wallet_tx ++ [t] }

/-- `UPDATE orders SET ... WHERE id=?`, with `f` the column rewrite. -/
def update_order_row (s : DB) (order_id : Int) (f : Order → Order) : DB :=
  { s with orders := s.orders.map (fun o => if o.id = order_id then f o else o) }

/-- `db.change_wallet(user_id, delta, tx_type, note, order_id)`:
reads the balance, fails (no mutation) on a missing user or on
`balance + delta < 0`, otherwise writes the new balance and appends one
transaction row whose `amount` is `abs(delta)`. -/
def change_wallet (s : DB) (user_id delta : Int) (tx_type note : String)
    (order_id : Option Int) : DB × Bool :=
  match get_user s user_id with
  | none => (s, false)
  | some u =>
    let new_bal := u.wallet_balance + delta
    if new_bal < 0 then (s, false)
    else
      (insert_wallet_tx (update_user_balance s user_id new_bal)
        { user_id := user_id, order_id := order_id, amount := |delta|,
          type := tx_type, note := note }, true)

/-- `db.set_order_wallet_reserved(order_id, amount)`. -/
def set_order_wallet_reserved (s : DB) (order_id amount : Int) : DB :=
  update_order_row s order_id (fun o => { o with wallet_reserved_amount := amount })

/-- `db.set_order_wallet_used(order_id, amount)`. -/
def set_order_wallet_used (s : DB) (order_id amount : Int) : DB :=
  update_order_row s order_id (fun o => { o with wallet_used_amount := amount })

/-- `int(order.get("amount_total") or order.get("price") or 0)`:
the `or` chain falls through on a zero/NULL `amount_total`. -/
def order_base_amount (o : Order) : Int :=
  if o.amount_total ≠ 0 then o.amount_total else o.price

/-- `db.apply_order_cashback(order_id)`: credits only the difference
between `floor(base * percent / 100)` and the recorded
`cashback_applied_amount`, then records the new total. -/
def apply_order_cashback (s : DB) (order_id : Int) : DB × Int :=
  match get_order s order_id with
  | none => (s, 0)
  | some order =>
    let percent := max order.cashback_percent 0
    if percent ≤ 0 then (s, 0)
    else
      let cashback_total := max (Int.fdiv (order_base_amount order * percent) 100) 0
      let already_applied := order.cashback_applied_amount
      let remaining := max (cashback_total - already_applied) 0
      if remaining ≤ 0 ∨ order.user_id = 0 then (s, 0)
      else
        let r := change_wallet s order.user_id remaining "CREDIT"
          ("CASHBACK:ORDER:" ++ toString order_id) (some order_id)
        if r.2 then
          (update_order_row r.1 order_id
            (fun o => { o with cashback_applied_amount := cashback_total }), remaining)
        else (r.1, 0)

/-- The `paid_statuses` set of `db.set_order_status`. -/
def paid_statuses : List String :=
  ["IN_PROGRESS", "READY_TO_DELIVER", "DELIVERED", "COMPLETED"]

/-- `db.set_order_status(order_id, status)`: unconditionally rewrites the
status, then fires cashback when the status actually changed to a paid
status. -/
def set_order_status (s : DB) (order_id : Int) (status : String) : DB :=
  let previous := get_order s order_id
  let s1 := update_order_row s order_id (fun o => { o with status := status })
  let updated := get_order s1 order_id
  match updated, previous with
  | some u, some p =>
    if p.status ≠ u.status ∧ u.status ∈ paid_statuses then
      (apply_order_cashback s1 order_id).1
    else s1
  | _, _ => s1

/-- `db.get_order_payable_amount(order)`: `amount_total` (with the `price`
fallback) minus the clamped discount, clamped at `0`. -/
def get_order_payable_amount (order : Option Order) : Int :=
  match order with
  | none => 0
  | some o => max (order_base_amount o - max o.discount_amount 0) 0

/-- `await_deadline IS NOT NULL AND await_deadline <= now`. -/
def deadline_passed (now : Int) (o : Order) : Bool :=
  match o.await_deadline with
  | some d => decide (d ≤ now)
  | none => false

/-- The row filter of the sweep query in `db.expire_orders_and_refund`. -/
def expire_due (now : Int) (o : Order) : Bool :=
  decide (o.status = "AWAITING_PAYMENT") && deadline_passed now o

/-- One loop iteration of `db.expire_orders_and_refund` on a fetched row. -/
def expire_one (s : DB) (o : Order) : DB :=
  let rid := o.id
  let reserved := o.wallet_reserved_amount
  let s1 :=
    if reserved > 0 then
      set_order_wallet_reserved
        (change_wallet s o.user_id reserved "REFUND"
          ("Expire order #" ++ toString rid) (some rid)).1 rid 0
    else s
  set_order_status s1 rid "EXPIRED"

/-- `db.expire_orders_and_refund()`: snapshot the overdue
`AWAITING_PAYMENT` orders, refund and expire each, return the snapshot. -/
def expire_orders_and_refund (s : DB) (now : Int) : DB × List Order :=
  let expired := s.orders.filter (expire_due now)
  (expired.foldl expire_one s, expired)

/-- Python `str.strip()` on the character list (whitespace at both ends). -/
def py_strip_chars (cs : List Char) : List Char :=
  ((cs.dropWhile Char.isWhitespace).reverse.dropWhile Char.isWhitespace).reverse

/-- Python `str.strip()`. -/
def py_strip (s : String) : String := String.mk (py_strip_chars s.toList)

/-- Uppercasing as done by Python `str.upper()` / SQLite `UPPER` on the
ASCII codes appearing in coupon and discount codes. -/
def py_upper (s : String) : String := String.mk (s.toList.map Char.toUpper)

/-- `(code or "").strip().upper()`. -/
def normalize_code (code : String) : String := py_upper (py_strip code)

/-- The row post-processing done by `db.get_coupon_by_code`:
`usage_limit_per_user = int(x or 1)` maps a zero/NULL column to `1`
(`expires_at` and `is_active` are already modelled as `Option`/`Bool`). -/
def coupon_row_view (c : Coupon) : Coupon :=
  { c with usage_limit_per_user :=
      if c.usage_limit_per_user = 0 then 1 else c.usage_limit_per_user }

/-- `db.get_coupon_by_code(code)`:
`SELECT * FROM coupons WHERE UPPER(code)=?` on the normalized code. -/
def get_coupon_by_code (s : DB) (code : String) : Option Coupon :=
  let normalized := normalize_code code
  if normalized = "" then none
  else (s.coupons.find? (fun c => py_upper c.code = normalized)).map coupon_row_view

/-- The expiry test shared by coupon and discount redemption:
`datetime.now() > fromisoformat(expires_at)` when the column is set. -/
def promo_expired (now : Int) (expires_at : Option Int) : Bool :=
  match expires_at with
  | some e => decide (e < now)
  | none => false

/-- The success payload of `db.redeem_coupon`. -/
structure RedeemInfo where
  amount : Int
  balance : Int
  code : String
deriving Repr, DecidableEq

/-- `db.redeem_coupon(user_id, code)`: validate (existence, activity,
positive amount, global limit, expiry, per-user limit), then credit the
wallet, bump or create the redemption row, and bump `used_count`. -/
def redeem_coupon (s : DB) (now : Int) (user_id : Int) (code : String) :
    DB × Bool × Option RedeemInfo × Option String :=
  let normalized := normalize_code code
  if normalized = "" then (s, false, none, some "کد کوپن نامعتبر است.")
  else
    match get_coupon_by_code s normalized with
    | none => (s, false, none, some "چنین کدی وجود ندارد.")
    | some coupon =>
      if ¬ coupon.is_active then (s, false, none, some "این کوپن غیرفعال است.")
      else
        let amount := coupon.amount
        if amount ≤ 0 then (s, false, none, some "مبلغ این کوپن معتبر نیست.")
        else if coupon.usage_limit ≠ 0 ∧ coupon.used_count ≥ coupon.usage_limit then
          (s, false, none, some "ظرفیت استفاده از این کوپن تکمیل شده است.")
        else if promo_expired now coupon.expires_at then
          (s, false, none, some "تاریخ انقضای این کوپن گذشته است.")
        else
          let redemption := s.coupon_redemptions.find?
            (fun r => r.coupon_id = coupon.id ∧ r.user_id = user_id)
          let per_user_limit :=
            if coupon.usage_limit_per_user = 0 then 1 else coupon.usage_limit_per_user
          let existing_uses := match redemption with
            | some r => r.times_used
            | none => 0
          if per_user_limit ≠ 0 ∧ existing_uses ≥ per_user_limit then
            (s, false, none, some "سقف استفاده شما از این کد تکمیل شده است.")
          else
            let r := change_wallet s user_id amount "CREDIT"
              ("COUPON:" ++ coupon.code) none
            if ¬ r.2 then (r.1, false, none, some "امکان واریز مبلغ کوپن وجود ندارد.")
            else
              let s2 :=
                match redemption with
                | some red =>
                  { r.1 with coupon_redemptions := r.1.coupon_redemptions.map (fun q : CouponRedemption =>
                      if q.id = red.id then { q with times_used := existing_uses + 1 } else q) }
                | none =>
                  { r.1 with coupon_redemptions := r.1.coupon_redemptions ++
                      [({ id := (r.1.coupon_redemptions.length : Int) + 1,
                          coupon_id := coupon.id, user_id := user_id,
                          amount := amount, times_used := 1 } : CouponRedemption)] }
              let s3 := { s2 with coupons := s2.coupons.map (fun c : Coupon =>
                  if c.id = coupon.id then { c with used_count := c.used_count + 1 } else c) }
              let balance := match get_user s3 user_id with
                | some u => u.wallet_balance
                | none => 0
              (s3, true, some { amount := amount, balance := balance, code := coupon.code }, none)

/-- Python `int(str)` on a stripped token: optional sign, then digits with
single underscores strictly between digits (CPython 3.6+ grammar). -/
def py_int_body_ok (cs : List Char) : Bool :=
  go cs false
where
  /-- `seen` records whether a digit has been read since the last
  underscore (and at the start, whether any digit was read at all). -/
  go : List Char → Bool → Bool
  | [], seen => seen
  | c :: rest, seen =>
    if c.isDigit then go rest true
    else if c = '_' then seen && go rest false
    else false

/-- Digit value of the body, underscores skipped. -/
def py_digits_value (cs : List Char) : Int :=
  (cs.filter Char.isDigit).foldl (fun n c => n * 10 + ((c.toNat : Int) - 48)) 0

/-- Python `int(s)` for a string argument: `none` models `ValueError`. -/
def py_int_parse (s : String) : Option Int :=
  match py_strip_chars s.toList with
  | '+' :: rest => if py_int_body_ok rest then some (py_digits_value rest) else none
  | '-' :: rest => if py_int_body_ok rest then some (-(py_digits_value rest)) else none
  | rest => if py_int_body_ok rest then some (py_digits_value rest) else none

/-- `db._order_product_id(order)`: the integer suffix of a
`product:<id>` service code, else `None`. -/
def order_product_id (order : Option Order) : Option Int :=
  match order with
  | none => none
  | some o =>
    if "product:".toList.isPrefixOf o.service_code.toList then
      py_int_parse (String.mk (o.service_code.toList.drop 8))
    else none

/-- `str.split(",")` on the character list. -/
def split_commas : List Char → List (List Char)
  | [] => [[]]
  | c :: rest =>
    match split_commas rest with
    | [] => [[c]]
    | g :: gs => if c = ',' then [] :: g :: gs else (c :: g) :: gs

/-- `db._parse_product_ids(raw)`: comma-split, keep the all-digit tokens. -/
def parse_product_ids (raw : String) : List Int :=
  if raw = "" then []
  else (split_commas raw.toList).filterMap (fun part =>
    let part := py_strip_chars part
    if part ≠ [] ∧ part.all Char.isDigit
    then some (py_digits_value part) else none)

/-- The dict produced by `db.get_discount_by_code` after its row
post-processing (`product_ids` parsed to a list, `usage_limit_per_user`
defaulted to `1` on zero/NULL). -/
structure DiscountView where
  id : Int
  code : String
  amount : Int
  usage_limit : Int
  usage_limit_per_user : Int
  used_count : Int
  is_active : Bool
  applies_all : Bool
  product_ids : List Int
  expires_at : Option Int
deriving Repr, DecidableEq

/-- The row post-processing done by `db.get_discount_by_code`. -/
def discount_row_view (d : Discount) : DiscountView :=
  { id := d.id, code := d.code, amount := d.amount, usage_limit := d.usage_limit,
    usage_limit_per_user :=
      if d.usage_limit_per_user = 0 then 1 else d.usage_limit_per_user,
    used_count := d.used_count, is_active := d.is_active,
    applies_all := d.applies_all, product_ids := parse_product_ids d.product_ids,
    expires_at := d.expires_at }

/-- `db.get_discount_by_code(code)`. -/
def get_discount_by_code (s : DB) (code : String) : Option DiscountView :=
  let normalized := normalize_code code
  if normalized = "" then none
  else (s.discounts.find? (fun d => py_upper d.code = normalized)).map discount_row_view

/-- The success payload of `db.apply_discount_to_order`. -/
structure DiscountInfo where
  discount : Int
  payable : Int
  code : String
deriving Repr, DecidableEq

/-- `db.apply_discount_to_order(order_id, user_id, code)`. -/
def apply_discount_to_order (s : DB) (now : Int) (order_id user_id : Int)
    (code : String) : DB × Bool × Option DiscountInfo × Option String :=
  match get_order s order_id with
  | none => (s, false, none, some "سفارش نامعتبر است.")
  | some order =>
    if order.user_id ≠ user_id then (s, false, none, some "سفارش نامعتبر است.")
    else if order.status ≠ "AWAITING_PAYMENT" then
      (s, false, none, some "وضعیت سفارش اجازه ثبت تخفیف نمی‌دهد.")
    else if py_strip order.discount_code ≠ "" then
      (s, false, none, some "روی این سفارش قبلاً کد تخفیف ثبت شده است.")
    else
      let normalized := normalize_code code
      if normalized = "" then (s, false, none, some "کد تخفیف نامعتبر است.")
      else
        match get_discount_by_code s normalized with
        | none => (s, false, none, some "کد تخفیف یافت نشد.")
        | some discount =>
          if ¬ discount.is_active then (s, false, none, some "این کد تخفیف غیرفعال است.")
          else
            let amount := discount.amount
            if amount ≤ 0 then (s, false, none, some "مبلغ تخفیف معتبر نیست.")
            else if discount.usage_limit ≠ 0 ∧ discount.used_count ≥ discount.usage_limit then
              (s, false, none, some "ظرفیت استفاده از این کد تکمیل شده است.")
            else if promo_expired now discount.expires_at then
              (s, false, none, some "تاریخ انقضای این کد گذشته است.")
            else
              match order_product_id (some order) with
              | none => (s, false, none, some "این کد فقط برای محصولات اعمال می‌شود.")
              | some product_id =>
                if ¬ discount.applies_all ∧ discount.product_ids ≠ [] ∧
                    product_id ∉ discount.product_ids then
                  (s, false, none, some "این کد برای محصول انتخاب‌شده معتبر نیست.")
                else
                  let redemption := s.discount_redemptions.find?
                    (fun r => r.discount_id = discount.id ∧ r.user_id = user_id)
                  let per_user_limit :=
                    if discount.usage_limit_per_user = 0 then 1
                    else discount.usage_limit_per_user
                  let existing_uses := match redemption with
                    | some r => r.times_used
                    | none => 0
                  if per_user_limit ≠ 0 ∧ existing_uses ≥ per_user_limit then
                    (s, false, none, some "سقف استفاده شما از این کد تکمیل شده است.")
                  else
                    let base_amount := order_base_amount order
                    let discount_value := min (max amount 0) (max base_amount 0)
                    let payable := max (base_amount - discount_value) 0
                    let s1 := update_order_row s order_id (fun o =>
                      { o with discount_id := some discount.id,
                               discount_code := discount.code,
                               discount_amount := discount_value })
                    let s2 :=
                      match redemption with
                      | some red =>
                        { s1 with discount_redemptions := s1.discount_redemptions.map (fun q : DiscountRedemption =>
                            if q.id = red.id then
                              { q with times_used := existing_uses + 1,
                                       order_id := some order_id }
                            else q) }
                      | none =>
                        { s1 with discount_redemptions := s1.discount_redemptions ++
                            [({ id := (s1.discount_redemptions.length : Int) + 1,
                                discount_id := discount.id, user_id := user_id,
                                order_id := some order_id, amount := discount_value,
                                times_used := 1 } : DiscountRedemption)] }
                    let s3 := { s2 with discounts := s2.discounts.map (fun d : Discount =>
                        if d.id = discount.id then { d with used_count := d.used_count + 1 } else d) }
                    (s3, true,
                      some { discount := discount_value, payable := payable,
                             code := discount.code }, none)

/-- The status keys accepted by the admin order form
(`ORDER_STATUS_LABELS` in `db.py`). -/
def ORDER_STATUS_KEYS : List String :=
  ["AWAITING_PAYMENT", "PENDING_CONFIRM", "PENDING_PLAN", "PLAN_CONFIRMED",
   "APPROVED", "IN_PROGRESS", "READY_TO_DELIVER", "DELIVERED", "COMPLETED",
   "EXPIRED", "REJECTED", "CANCELED"]

/-- `adjust_wallet` (`POST /users/{user_id}/wallet-adjust` in
`webadmin/server.py`): 404 on a missing user, reject a non-positive
amount, else map the action to a `(tx_type, delta)` pair and call
`change_wallet`.  Note the `reserve` action keeps `delta = +amount`. -/
def user_wallet_adjust (s : DB) (user_id : Int) (action : String)
    (amount : Int) (note : String) : DB × Bool :=
  match get_user s user_id with
  | none => (s, false)
  | some _ =>
    if amount ≤ 0 then (s, false)
    else
      let p : String × Int :=
        if action = "debit" then ("DEBIT", -amount)
        else if action = "refund" then ("REFUND", amount)
        else if action = "reserve" then ("RESERVE", amount)
        else ("CREDIT", amount)
      change_wallet s user_id p.2 p.1 note none

/-- The `new_status == "REJECTED"` notification branch of the admin
`update_order` handler: refund reserved and used wallet funds, then
credit the remainder of `amount_total` (the "card part"). -/
def order_reject_refunds (s : DB) (order_id : Int) (updated : Order) : DB :=
  let user_id := updated.user_id
  let reserved_amount := updated.wallet_reserved_amount
  let used_amount := updated.wallet_used_amount
  let total_amount := updated.amount_total
  let card_part := max (total_amount - reserved_amount - used_amount) 0
  let s1 :=
    if reserved_amount > 0 then
      set_order_wallet_reserved
        (change_wallet s user_id reserved_amount "REFUND"
          ("Order #" ++ toString order_id ++ " rejected") (some order_id)).1 order_id 0
    else s
  let s2 :=
    if used_amount > 0 then
      set_order_wallet_used
        (change_wallet s1 user_id used_amount "REFUND"
          ("Order #" ++ toString order_id ++ " rejected") (some order_id)).1 order_id 0
    else s1
  if card_part > 0 then
    (change_wallet s2 user_id card_part "CREDIT"
      ("Order #" ++ toString order_id ++ " card refund") (some order_id)).1
  else s2

/-- The `action == "status"` branch of the admin `update_order` handler
(`POST /orders/{order_id}/update` in `webadmin/server.py`), state
mutations only (flash messages and notifications dropped). -/
def order_detail_update_status (s : DB) (order_id : Int) (status_value : String) : DB :=
  match get_order s order_id with
  | none => s
  | some order =>
    let original_status := order.status
    let plan_approval := status_value = "PLAN_CONFIRMED"
    if plan_approval ∧ original_status ≠ "PENDING_PLAN" then s
    else
      let new_status :=
        if status_value = "APPROVED" ∨ status_value = "PLAN_CONFIRMED"
        then "IN_PROGRESS" else status_value
      if new_status ∉ ORDER_STATUS_KEYS then s
      else
        let status_changed := original_status ≠ new_status
        let s1 := if status_changed then set_order_status s order_id new_status else s
        let s2 :=
          if status_changed ∧ new_status ∈ paid_statuses then
            if order.wallet_reserved_amount > 0 then
              set_order_wallet_used (set_order_wallet_reserved s1 order_id 0)
                order_id (order.wallet_used_amount + order.wallet_reserved_amount)
            else s1
          else s1
        match get_order s2 order_id with
        | none => s2
        | some updated =>
          if status_changed ∧ order.user_id ≠ 0 ∧ new_status = "REJECTED" then
            order_reject_refunds s2 order_id updated
          else s2

/-! ### The wallet ledger invariant and the public operation language -/

/-- The signed balance effect that the spec ascribes to a ledger row of
the given `type` and (absolute) `amount`: CREDIT/REFUND count positively,
DEBIT/RESERVE negatively. -/
def signed_amount (tx_type : String) (amount : Int) : Int :=
  if tx_type = "CREDIT" ∨ tx_type = "REFUND" then amount
  else if tx_type = "DEBIT" ∨ tx_type = "RESERVE" then -amount
  else 0

/-- The signed effect of one `wallet_tx` row. -/
def tx_signed (t : WalletTx) : Int := signed_amount t.type t.amount

/-- `Σ(CREDIT)+Σ(REFUND)−Σ(DEBIT)−Σ(RESERVE)` over one user's rows. -/
def ledger_sum (txs : List WalletTx) (user_id : Int) : Int :=
  ((txs.filter (fun t => t.user_id = user_id)).map tx_signed).sum

/-- The spec's ledger invariant: every cached `wallet_balance` equals the
signed sum of that user's transaction rows. -/
@[reducible] def wallet_invariant (s : DB) : Prop :=
  ∀ u ∈ s.users, u.wallet_balance = ledger_sum s.wallet_tx u.user_id

/-- The public state-mutating operations of the core, as invoked by the
bot/web handlers. -/
inductive StoreOp where
  | changeWalletOp (user_id delta : Int) (tx_type note : String) (order_id : Option Int)
  | redeemCouponOp (now user_id : Int) (code : String)
  | applyCashbackOp (order_id : Int)
  | setOrderStatusOp (order_id : Int) (status : String)
  | expireSweepOp (now : Int)
  | walletAdjustOp (user_id : Int) (action : String) (amount : Int) (note : String)
  | adminStatusOp (order_id : Int) (status_value : String)
  | applyDiscountOp (now order_id user_id : Int) (code : String)
deriving Repr, DecidableEq

/-- Interpretation of one public operation on the store. -/
def StoreOp.run (s : DB) : StoreOp → DB
  | changeWalletOp uid d ty note oid => (change_wallet s uid d ty note oid).1
  | redeemCouponOp now uid code => (redeem_coupon s now uid code).1
  | applyCashbackOp oid => (apply_order_cashback s oid).1
  | setOrderStatusOp oid st => set_order_status s oid st
  | expireSweepOp now => (expire_orders_and_refund s now).1
  | walletAdjustOp uid action amount note => (user_wallet_adjust s uid action amount note).1
  | adminStatusOp oid sv => order_detail_update_status s oid sv
  | applyDiscountOp now oid uid code => (apply_discount_to_order s now oid uid code).1

/-- A raw `change_wallet` call is sign-consistent when the sign of its
`delta` matches the ledger polarity of its `tx_type`; the admin
wallet-adjust form is sign-consistent except for its `reserve` action
(which passes `+amount` with type `RESERVE`).  All other public
operations only issue sign-consistent ledger writes. -/
def StoreOp.signConsistent : StoreOp → Bool
  | changeWalletOp _ d ty _ _ => signed_amount ty |d| = d
  | walletAdjustOp _ action _ _ => action ≠ "reserve"
  | _ => true

/-- Running a sequence of public operations. -/
def run_ops (s : DB) (ops : List StoreOp) : DB := ops.foldl StoreOp.run s

/-! ### Concrete instances used by the witnesses and counterexamples -/

/-- A template order row (all monetary fields zero). -/
def baseOrder : Order :=
  { id := 1, user_id := 7, price := 0, status := "AWAITING_PAYMENT",
    service_code := "product:5", amount_total := 0, discount_id := none,
    discount_code := "", discount_amount := 0, wallet_reserved_amount := 0,
    wallet_used_amount := 0, await_deadline := none, cashback_percent := 0,
    cashback_applied_amount := 0 }

/-- The empty store. -/
def emptyDB : DB :=
  { users := [], orders := [], wallet_tx := [], coupons := [],
    coupon_redemptions := [], discounts := [], discount_redemptions := [] }

/-- One user with balance `0` and an empty ledger. -/
def exC1_s : DB := { emptyDB with users := [{ user_id := 1, wallet_balance := 0 }] }

/-- One user with balance `10`. -/
def exC2_s : DB := { emptyDB with users := [{ user_id := 5, wallet_balance := 10 }] }

/-- A store holding one order in the terminal status `COMPLETED`. -/
def exC3_s : DB := { emptyDB with orders := [{ baseOrder with status := "COMPLETED" }] }

/-- A discounted, fully card-paid order in progress: gross `100`,
discount `10`, no wallet reservation or usage; owner balance `0`. -/
def exC4_s : DB :=
  { emptyDB with
    users := [{ user_id := 7, wallet_balance := 0 }],
    orders := [{ baseOrder with
        status := "IN_PROGRESS", price := 100,
        amount_total := 100, discount_amount := 10 }] }

/-- An overdue awaiting-payment order with `30` reserved; owner balance `50`. -/
def exC5_s : DB :=
  { emptyDB with
    users := [{ user_id := 7, wallet_balance := 50 }],
    orders := [{ baseOrder with
        price := 100, amount_total := 100,
        wallet_reserved_amount := 30, await_deadline := some 10 }] }

/-- A coupon with `usage_limit_per_user = 1` already redeemed once by user `7`. -/
def exC6_s : DB :=
  { emptyDB with
    users := [{ user_id := 7, wallet_balance := 55 }],
    coupons := [{ id := 1, code := "AB", amount := 5, usage_limit := 0,
                  usage_limit_per_user := 1, used_count := 1, is_active := true,
                  expires_at := none }],
    coupon_redemptions := [{ id := 1, coupon_id := 1, user_id := 7, amount := 5,
                             times_used := 1 }] }

/-- An order sitting in `IN_PROGRESS`, for the no-op transition. -/
def exC8_s : DB :=
  { emptyDB with
    users := [{ user_id := 7, wallet_balance := 50 }],
    orders := [{ baseOrder with
        status := "IN_PROGRESS", price := 100,
        amount_total := 100, cashback_percent := 10 }] }

/-- A store whose `users` table does not contain user `9`. -/
def exC9_s : DB := { emptyDB with users := [{ user_id := 5, wallet_balance := 10 }] }

/-- An awaiting-payment order whose `service_code` is not product-coded,
next to an active, unlimited, applies-all discount. -/
def exC10_s : DB :=
  { emptyDB with
    users := [{ user_id := 7, wallet_balance := 0 }],
    orders := [{ baseOrder with
        service_code := "subscription:4", price := 100,
        amount_total := 100 }],
    discounts := [{ id := 1, code := "OFF", amount := 20, usage_limit := 0,
                    usage_limit_per_user := 1, used_count := 0, is_active := true,
                    applies_all := true, product_ids := "", expires_at := none }] }

/-! ## Proof layer

Shared helper lemmas about the row combinators, used by several of the
claim theorems below. -/

theorem find?_map_comm {α : Type} (l : List α) (f : α → α) (p : α → Bool)
    (h : ∀ x, p (f x) = p x) : (l.map f).find? p = (l.find? p).map f := by
  induction l with
  | nil => rfl
  | cons a t ih =>
    simp only [List.map_cons]
    by_cases hp : p a = true
    · rw [List.find?_cons_of_pos (t.map f) (by rw [h a]; exact hp),
        List.find?_cons_of_pos t hp]
      rfl
    · rw [List.find?_cons_of_neg (t.map f) (by rw [h a]; exact hp),
        List.find?_cons_of_neg t hp, ih]

theorem map_eq_self_of_mem {α : Type} (l : List α) (f : α → α)
    (h : ∀ x ∈ l, f x = x) : l.map f = l := by
  rw [List.map_congr_left h, List.map_id']

/-- The key of a fetched user row. -/
theorem get_user_key (s : DB) (user_id : Int) (u : User)
    (h : get_user s user_id = some u) : u.user_id = user_id := by
  unfold get_user at h
  simpa using List.find?_some h

/-- A fetched user row is in the table. -/
theorem get_user_mem (s : DB) (user_id : Int) (u : User)
    (h : get_user s user_id = some u) : u ∈ s.users := by
  unfold get_user at h
  exact List.mem_of_find?_eq_some h

/-- The key of a fetched order row. -/
theorem get_order_key (s : DB) (order_id : Int) (o : Order)
    (h : get_order s order_id = some o) : o.id = order_id := by
  unfold get_order at h
  simpa using List.find?_some h

/-- A fetched order row is in the table. -/
theorem get_order_mem (s : DB) (order_id : Int) (o : Order)
    (h : get_order s order_id = some o) : o ∈ s.orders := by
  unfold get_order at h
  exact List.mem_of_find?_eq_some h

theorem get_user_insert_wallet_tx (s : DB) (t : WalletTx) (user_id : Int) :
    get_user (insert_wallet_tx s t) user_id = get_user s user_id := rfl

theorem get_user_update_order_row (s : DB) (order_id : Int) (f : Order → Order)
    (user_id : Int) :
    get_user (update_order_row s order_id f) user_id = get_user s user_id := rfl

theorem get_order_insert_wallet_tx (s : DB) (t : WalletTx) (order_id : Int) :
    get_order (insert_wallet_tx s t) order_id = get_order s order_id := rfl

theorem get_order_update_user_balance (s : DB) (user_id b order_id : Int) :
    get_order (update_user_balance s user_id b) order_id = get_order s order_id := rfl

theorem tx_update_order_row (s : DB) (order_id : Int) (f : Order → Order) :
    (update_order_row s order_id f).wallet_tx = s.wallet_tx := rfl

theorem tx_update_user_balance (s : DB) (user_id b : Int) :
    (update_user_balance s user_id b).wallet_tx = s.wallet_tx := rfl

theorem get_user_update_user_balance (s : DB) (user_id b user_id' : Int) :
    get_user (update_user_balance s user_id b) user_id' =
      (get_user s user_id').map (fun u =>
        if u.user_id = user_id then { u with wallet_balance := b } else u) := by
  unfold get_user update_user_balance
  exact find?_map_comm _ _ _ (fun x => by by_cases hx : x.user_id = user_id <;> simp [hx])

theorem get_user_update_user_balance_other (s : DB) (user_id b user_id' : Int)
    (h : user_id' ≠ user_id) :
    get_user (update_user_balance s user_id b) user_id' = get_user s user_id' := by
  rw [get_user_update_user_balance]
  cases hv : get_user s user_id' with
  | none => rfl
  | some v =>
    have hid : v.user_id = user_id' := get_user_key s user_id' v hv
    simp [hid, h]

theorem get_order_update_order_row (s : DB) (order_id : Int) (f : Order → Order)
    (hf : ∀ o, (f o).id = o.id) (order_id' : Int) :
    get_order (update_order_row s order_id f) order_id' =
      (get_order s order_id').map (fun o => if o.id = order_id then f o else o) := by
  unfold get_order update_order_row
  refine find?_map_comm _ _ _ (fun x => ?_)
  by_cases hx : x.id = order_id <;> simp [hx, hf]

theorem get_order_update_order_row_other (s : DB) (order_id : Int) (f : Order → Order)
    (hf : ∀ o, (f o).id = o.id) (order_id' : Int) (h : order_id' ≠ order_id) :
    get_order (update_order_row s order_id f) order_id' = get_order s order_id' := by
  rw [get_order_update_order_row s order_id f hf]
  cases hv : get_order s order_id' with
  | none => rfl
  | some v =>
    have hid : v.id = order_id' := get_order_key s order_id' v hv
    simp [hid, h]

theorem get_order_update_order_row_same (s : DB) (order_id : Int) (f : Order → Order)
    (hf : ∀ o, (f o).id = o.id) (o : Order) (ho : get_order s order_id = some o) :
    get_order (update_order_row s order_id f) order_id = some (f o) := by
  rw [get_order_update_order_row s order_id f hf, ho]
  have hid : o.id = order_id := get_order_key s order_id o ho
  simp [hid]

/-- `get_user` only looks at the `users` column. -/
theorem get_user_eq_of_users_eq (s s' : DB) (user_id : Int)
    (h : s'.users = s.users) : get_user s' user_id = get_user s user_id := by
  unfold get_user; rw [h]

/-- `get_order` only looks at the `orders` column. -/
theorem get_order_eq_of_orders_eq (s s' : DB) (order_id : Int)
    (h : s'.orders = s.orders) : get_order s' order_id = get_order s order_id := by
  unfold get_order; rw [h]

theorem get_order_status_col (s : DB) (order_id : Int) (st : String) (order_id' : Int) :
    get_order (update_order_row s order_id (fun o => { o with status := st })) order_id' =
      (get_order s order_id').map
        (fun o => if o.id = order_id then { o with status := st } else o) :=
  get_order_update_order_row s order_id (fun o => { o with status := st })
    (fun x => rfl) order_id'

theorem get_order_cashback_col (s : DB) (order_id v order_id' : Int) :
    get_order (update_order_row s order_id
        (fun o => { o with cashback_applied_amount := v })) order_id' =
      (get_order s order_id').map
        (fun o => if o.id = order_id then { o with cashback_applied_amount := v } else o) :=
  get_order_update_order_row s order_id (fun o => { o with cashback_applied_amount := v })
    (fun x => rfl) order_id'

theorem get_order_reserved_col (s : DB) (order_id a order_id' : Int) :
    get_order (set_order_wallet_reserved s order_id a) order_id' =
      (get_order s order_id').map
        (fun o => if o.id = order_id then { o with wallet_reserved_amount := a } else o) :=
  get_order_update_order_row s order_id (fun o => { o with wallet_reserved_amount := a })
    (fun x => rfl) order_id'

theorem get_order_used_col (s : DB) (order_id a order_id' : Int) :
    get_order (set_order_wallet_used s order_id a) order_id' =
      (get_order s order_id').map
        (fun o => if o.id = order_id then { o with wallet_used_amount := a } else o) :=
  get_order_update_order_row s order_id (fun o => { o with wallet_used_amount := a })
    (fun x => rfl) order_id'

/-- `change_wallet` never touches the orders table. -/
theorem change_wallet_orders (s : DB) (user_id delta : Int) (tx_type note : String)
    (order_id : Option Int) :
    ((change_wallet s user_id delta tx_type note order_id).1).orders = s.orders := by
  unfold change_wallet
  cases get_user s user_id with
  | none => rfl
  | some u => by_cases h : u.wallet_balance + delta < 0 <;> simp [h, insert_wallet_tx,
      update_user_balance]

/-- `change_wallet` at most appends to the transaction log. -/
theorem change_wallet_tx_extend (s : DB) (user_id delta : Int) (tx_type note : String)
    (order_id : Option Int) :
    ∃ ts, ((change_wallet s user_id delta tx_type note order_id).1).wallet_tx =
      s.wallet_tx ++ ts := by
  unfold change_wallet
  cases get_user s user_id with
  | none => exact ⟨[], by simp⟩
  | some u =>
    by_cases h : u.wallet_balance + delta < 0
    · exact ⟨[], by simp [h]⟩
    · refine ⟨[⟨user_id, order_id, |delta|, tx_type, note⟩], ?_⟩
      simp [h, insert_wallet_tx, update_user_balance]

/-- `change_wallet` leaves other users\' rows alone. -/
theorem get_user_change_wallet_other (s : DB) (user_id delta : Int)
    (tx_type note : String) (order_id : Option Int) (user_id' : Int)
    (h : user_id' ≠ user_id) :
    get_user ((change_wallet s user_id delta tx_type note order_id).1) user_id' =
      get_user s user_id' := by
  unfold change_wallet
  cases get_user s user_id with
  | none => rfl
  | some u =>
    by_cases hb : u.wallet_balance + delta < 0
    · simp [hb]
    · simp only [hb, if_false]
      rw [get_user_insert_wallet_tx, get_user_update_user_balance_other _ _ _ _ h]

/-- A successful `change_wallet` updates the caller\'s row in place. -/
theorem get_user_change_wallet_success (s : DB) (u : User) (user_id delta : Int)
    (tx_type note : String) (order_id : Option Int)
    (hu : get_user s user_id = some u) (hb : ¬ u.wallet_balance + delta < 0) :
    get_user ((change_wallet s user_id delta tx_type note order_id).1) user_id =
      some { u with wallet_balance := u.wallet_balance + delta } := by
  unfold change_wallet
  rw [hu]
  simp only [hb, if_false]
  rw [get_user_insert_wallet_tx, get_user_update_user_balance, hu]
  have hid : u.user_id = user_id := get_user_key s user_id u hu
  simp [hid]

/-- The exact shape of a successful `change_wallet`. -/
theorem change_wallet_success_eq (s : DB) (u : User) (user_id delta : Int)
    (tx_type note : String) (order_id : Option Int)
    (hu : get_user s user_id = some u) (hb : ¬ u.wallet_balance + delta < 0) :
    change_wallet s user_id delta tx_type note order_id =
      (insert_wallet_tx (update_user_balance s user_id (u.wallet_balance + delta))
        { user_id := user_id, order_id := order_id, amount := |delta|,
          type := tx_type, note := note }, true) := by
  unfold change_wallet
  rw [hu]
  simp [hb]

/-- A `change_wallet` rejected by the balance guard mutates nothing. -/
theorem change_wallet_fail_neg (s : DB) (u : User) (user_id delta : Int)
    (tx_type note : String) (order_id : Option Int)
    (hu : get_user s user_id = some u) (hb : u.wallet_balance + delta < 0) :
    change_wallet s user_id delta tx_type note order_id = (s, false) := by
  unfold change_wallet
  rw [hu]
  simp [hb]

/-- When `change_wallet` reports failure its state is untouched. -/
theorem change_wallet_fail_state (s : DB) (user_id delta : Int)
    (tx_type note : String) (order_id : Option Int)
    (h : (change_wallet s user_id delta tx_type note order_id).2 = false) :
    (change_wallet s user_id delta tx_type note order_id).1 = s := by
  revert h
  unfold change_wallet
  cases get_user s user_id with
  | none => intro _; rfl
  | some u =>
    by_cases hb : u.wallet_balance + delta < 0
    · intro _; simp [hb]
    · intro h; simp [hb] at h

/-- Writing a field's current value back is the identity. -/
theorem order_status_writeback (o : Order) (st : String) (h : o.status = st) :
    { o with status := st } = o := by
  rw [← h]

theorem order_reserved_writeback (o : Order) (a : Int)
    (h : o.wallet_reserved_amount = a) :
    { o with wallet_reserved_amount := a } = o := by
  rw [← h]

/-- For a non-paid target status, `set_order_status` is the plain
status column rewrite: the cashback hook does not fire. -/
theorem set_order_status_not_paid (s : DB) (order_id : Int) (st : String)
    (h : st ∉ paid_statuses) :
    set_order_status s order_id st =
      update_order_row s order_id (fun o => { o with status := st }) := by
  have hupd := get_order_update_order_row s order_id
    (fun o => { o with status := st }) (fun o => rfl) order_id
  unfold set_order_status
  cases hp : get_order s order_id with
  | none =>
    have hupd2 : get_order (update_order_row s order_id
        (fun o => { o with status := st })) order_id = none := by
      rw [hupd, hp]; rfl
    simp only [hupd2]
  | some p =>
    have hid : p.id = order_id := get_order_key s order_id p hp
    have hupd2 : get_order (update_order_row s order_id
        (fun o => { o with status := st })) order_id = some { p with status := st } := by
      rw [hupd, hp]
      simp [hid]
    simp only [hupd2]
    simp [h]

/-! ### C2 / C9 — the `change_wallet` contract -/

/-- C2: for an existing user, `change_wallet` fails and mutates nothing
when `balance + delta < 0`; otherwise it returns `True`, sets the balance
to `balance + delta` (which is then non-negative), and appends exactly
one transaction row whose amount is `|delta|` with the given type. -/
theorem change_wallet_contract (s : DB) (u : User) (user_id delta : Int)
    (tx_type note : String) (order_id : Option Int)
    (hu : get_user s user_id = some u) :
    (u.wallet_balance + delta < 0 →
      change_wallet s user_id delta tx_type note order_id = (s, false)) ∧
    (¬ u.wallet_balance + delta < 0 →
      (change_wallet s user_id delta tx_type note order_id).2 = true ∧
      get_user ((change_wallet s user_id delta tx_type note order_id).1) user_id =
        some { u with wallet_balance := u.wallet_balance + delta } ∧
      ((change_wallet s user_id delta tx_type note order_id).1).wallet_tx =
        s.wallet_tx ++ [⟨user_id, order_id, |delta|, tx_type, note⟩] ∧
      0 ≤ u.wallet_balance + delta) := by
  constructor
  · intro hneg
    exact change_wallet_fail_neg s u user_id delta tx_type note order_id hu hneg
  · intro hpos
    refine ⟨?_, ?_, ?_, by omega⟩
    · rw [change_wallet_success_eq s u user_id delta tx_type note order_id hu hpos]
    · exact get_user_change_wallet_success s u user_id delta tx_type note order_id hu hpos
    · rw [change_wallet_success_eq s u user_id delta tx_type note order_id hu hpos]
      rfl

theorem change_wallet_contract_witness :
    (change_wallet exC2_s 5 (-4) "DEBIT" "spend" none).2 = true ∧
    change_wallet exC2_s 5 (-11) "DEBIT" "spend" none = (exC2_s, false) := by
  have h := change_wallet_contract exC2_s ⟨5, 10⟩ 5 (-4) "DEBIT" "spend" none (by decide)
  have h2 := change_wallet_contract exC2_s ⟨5, 10⟩ 5 (-11) "DEBIT" "spend" none (by decide)
  exact ⟨(h.2 (by decide)).1, h2.1 (by decide)⟩

/-- C9: for a user id with no row in `users`, `change_wallet` returns
`False` and writes nothing, for every `delta` and `type`. -/
theorem change_wallet_missing_user (s : DB) (user_id delta : Int)
    (tx_type note : String) (order_id : Option Int)
    (hu : get_user s user_id = none) :
    change_wallet s user_id delta tx_type note order_id = (s, false) := by
  unfold change_wallet
  rw [hu]

theorem change_wallet_missing_user_witness :
    change_wallet exC9_s 9 1000 "CREDIT" "gift" none = (exC9_s, false) :=
  change_wallet_missing_user exC9_s 9 1000 "CREDIT" "gift" none (by decide)

/-! ### C8 / C3 — the status transition operation -/

/-- With unique order ids, every row sharing the fetched row's key is
the fetched row. -/
theorem row_eq_of_nodup (s : DB) (order_id : Int) (o : Order)
    (hnodup : (s.orders.map Order.id).Nodup)
    (ho : get_order s order_id = some o) :
    ∀ x ∈ s.orders, x.id = order_id → x = o := by
  intro x hx hxid
  have hom := get_order_mem s order_id o ho
  have hoid := get_order_key s order_id o ho
  exact List.inj_on_of_nodup_map hnodup hx hom (by rw [hxid, hoid])

/-- C8: submitting the order's current status to the transition
operation changes nothing at all — in particular the cashback hook does
not fire, so the wallet balance, the transaction log and
`cashback_applied_amount` are untouched, however often it is repeated. -/
theorem set_order_status_same_noop (s : DB) (order_id : Int) (o : Order)
    (ho : get_order s order_id = some o)
    (hnodup : (s.orders.map Order.id).Nodup) :
    set_order_status s order_id o.status = s := by
  have hrow := row_eq_of_nodup s order_id o hnodup ho
  have hmap : update_order_row s order_id
      (fun x => { x with status := o.status }) = s := by
    unfold update_order_row
    have hid : s.orders.map
        (fun x => if x.id = order_id then { x with status := o.status } else x) =
        s.orders := by
      apply map_eq_self_of_mem
      intro x hx
      by_cases hxid : x.id = order_id
      · rw [if_pos hxid, hrow x hx hxid]
      · rw [if_neg hxid]
    rw [hid]
  unfold set_order_status
  simp only [hmap, ho]
  simp

theorem set_order_status_same_noop_witness :
    set_order_status exC8_s 1 "IN_PROGRESS" = exC8_s := by
  have h := set_order_status_same_noop exC8_s 1
    { baseOrder with
      status := "IN_PROGRESS", price := 100,
      amount_total := 100, cashback_percent := 10 } (by decide) (by decide)
  exact h

/-- The cashback routine never changes any order's status column. -/
theorem get_order_status_apply_order_cashback (s : DB) (oid oid' : Int) :
    (get_order ((apply_order_cashback s oid).1) oid').map Order.status =
      (get_order s oid').map Order.status := by
  unfold apply_order_cashback
  cases ho : get_order s oid with
  | none => rfl
  | some o =>
    dsimp only
    split
    · rfl
    · split
      · rfl
      · split
        · rw [get_order_cashback_col,
            get_order_eq_of_orders_eq _ _ oid' (change_wallet_orders _ _ _ _ _ _)]
          cases get_order s oid' with
          | none => rfl
          | some v => by_cases hv : v.id = oid <;> simp [hv]
        · exact congrArg (Option.map Order.status)
            (get_order_eq_of_orders_eq _ _ oid' (change_wallet_orders _ _ _ _ _ _))

/-- C3 (counterexample): the transition operation accepts a transition
out of the terminal status `COMPLETED` and rewrites the status, instead
of rejecting it. -/
theorem set_order_status_terminal_cex :
    (get_order exC3_s 1).map Order.status = some "COMPLETED" ∧
    (get_order (set_order_status exC3_s 1 "AWAITING_PAYMENT") 1).map Order.status =
      some "AWAITING_PAYMENT" := by
  constructor
  · decide
  · decide

/-- C3 (amended): the transition operation performs no terminal-state
check: for an existing order in a terminal status and any different
target status, it simply rewrites the order's status to the target. -/
theorem set_order_status_from_terminal (s : DB) (order_id : Int) (o : Order)
    (target : String) (ho : get_order s order_id = some o)
    (hterm : o.status ∈ ["EXPIRED", "REJECTED", "CANCELED", "COMPLETED"])
    (hne : target ≠ o.status) :
    (get_order (set_order_status s order_id target) order_id).map Order.status =
      some target := by
  have hid : o.id = order_id := get_order_key s order_id o ho
  have hupd2 : get_order (update_order_row s order_id
      (fun x => { x with status := target })) order_id =
      some { o with status := target } := by
    rw [get_order_status_col, ho]
    simp [hid]
  unfold set_order_status
  simp only [ho, hupd2]
  split
  · rw [get_order_status_apply_order_cashback, hupd2]
    rfl
  · rw [hupd2]
    rfl

theorem set_order_status_from_terminal_witness :
    (get_order (set_order_status exC3_s 1 "AWAITING_PAYMENT") 1).map Order.status =
      some "AWAITING_PAYMENT" :=
  set_order_status_from_terminal exC3_s 1 { baseOrder with status := "COMPLETED" }
    "AWAITING_PAYMENT" (by decide) (by decide) (by decide)

/-! ### C10 — discounts require a product-coded order -/

/-- C10: whenever the order's `service_code` does not parse as
`product:<integer>` (`_order_product_id` returns `None`),
`apply_discount_to_order` fails with an error message and leaves the
store untouched, regardless of the discount's state. -/
theorem apply_discount_requires_product_code (s : DB) (now order_id user_id : Int)
    (code : String) (o : Order) (ho : get_order s order_id = some o)
    (hcode : order_product_id (some o) = none) :
    ∃ msg, apply_discount_to_order s now order_id user_id code =
      (s, false, none, some msg) := by
  unfold apply_discount_to_order
  simp only [ho, hcode]
  repeat' first
    | exact ⟨_, rfl⟩
    | split

theorem apply_discount_requires_product_code_witness :
    ∃ msg, apply_discount_to_order exC10_s 0 1 7 "OFF" =
      (exC10_s, false, none, some msg) :=
  apply_discount_requires_product_code exC10_s 0 1 7 "OFF"
    { baseOrder with
      service_code := "subscription:4", price := 100, amount_total := 100 }
    (by decide) (by decide)

/-! ### C6 — per-user coupon limit -/

/-- C6: a second redemption of a coupon with `usage_limit_per_user = 1`
by a user whose redemption row already shows `times_used ≥ 1` fails with
the per-user limit message and leaves the store exactly as it was. -/
theorem redeem_coupon_per_user_limit (s : DB) (now user_id : Int) (code : String)
    (c : Coupon) (r : CouponRedemption)
    (hnorm : ¬ normalize_code code = "")
    (hc : get_coupon_by_code s (normalize_code code) = some c)
    (hactive : c.is_active = true)
    (hamount : 0 < c.amount)
    (hglobal : ¬ (c.usage_limit ≠ 0 ∧ c.used_count ≥ c.usage_limit))
    (hexp : promo_expired now c.expires_at = false)
    (hper : c.usage_limit_per_user = 1)
    (hr : s.coupon_redemptions.find?
      (fun q => q.coupon_id = c.id ∧ q.user_id = user_id) = some r)
    (hused : 1 ≤ r.times_used) :
    redeem_coupon s now user_id code =
      (s, false, none, some "سقف استفاده شما از این کد تکمیل شده است.") := by
  have hAm : ¬ c.amount ≤ 0 := not_le.mpr hamount
  have hr2 : s.coupon_redemptions.find?
      (fun q => decide (q.coupon_id = c.id) && decide (q.user_id = user_id)) = some r := by
    simpa using hr
  have hlt : ¬ r.times_used < 1 := not_lt.mpr hused
  unfold redeem_coupon
  simp [hnorm, hc, hactive, hAm, hglobal, hexp, hper, hr2, hused, hlt]

/-! ### C4 — refunds on rejection use the gross amount -/

theorem order_used_writeback (o : Order) (a : Int)
    (h : o.wallet_used_amount = a) :
    { o with wallet_used_amount := a } = o := by
  rw [← h]

theorem get_user_set_order_wallet_reserved (s : DB) (order_id a user_id : Int) :
    get_user (set_order_wallet_reserved s order_id a) user_id = get_user s user_id := rfl

theorem get_user_set_order_wallet_used (s : DB) (order_id a user_id : Int) :
    get_user (set_order_wallet_used s order_id a) user_id = get_user s user_id := rfl

theorem tx_set_order_wallet_reserved (s : DB) (order_id a : Int) :
    (set_order_wallet_reserved s order_id a).wallet_tx = s.wallet_tx := rfl

theorem tx_set_order_wallet_used (s : DB) (order_id a : Int) :
    (set_order_wallet_used s order_id a).wallet_tx = s.wallet_tx := rfl

theorem change_wallet_tx_success (s : DB) (u : User) (user_id delta : Int)
    (tx_type note : String) (order_id : Option Int)
    (hu : get_user s user_id = some u) (hb : ¬ u.wallet_balance + delta < 0) :
    ((change_wallet s user_id delta tx_type note order_id).1).wallet_tx =
      s.wallet_tx ++ [⟨user_id, order_id, |delta|, tx_type, note⟩] := by
  rw [change_wallet_success_eq s u user_id delta tx_type note order_id hu hb]
  rfl

/-- One "refund then zero the reserved column" step of the rejection
branch. -/
theorem reject_step_reserved {s : DB} {order_id : Int} {oc : Order} {u : User}
    (uid a : Int) (note : String)
    (ho : get_order s order_id = some oc)
    (hoid : oc.id = order_id)
    (hu : get_user s uid = some u)
    (hbal : 0 ≤ u.wallet_balance) (ha : 0 < a) :
    get_user (set_order_wallet_reserved (change_wallet s uid a "REFUND" note
        (some order_id)).1 order_id 0) uid =
      some ⟨u.user_id, u.wallet_balance + a⟩ ∧
    get_order (set_order_wallet_reserved (change_wallet s uid a "REFUND" note
        (some order_id)).1 order_id 0) order_id =
      some { oc with wallet_reserved_amount := 0 } ∧
    (set_order_wallet_reserved (change_wallet s uid a "REFUND" note
        (some order_id)).1 order_id 0).wallet_tx =
      s.wallet_tx ++ [⟨uid, some order_id, a, "REFUND", note⟩] := by
  have hb : ¬ u.wallet_balance + a < 0 := by omega
  refine ⟨?_, ?_, ?_⟩
  · rw [get_user_set_order_wallet_reserved]
    exact get_user_change_wallet_success s u uid a "REFUND" note (some order_id) hu hb
  · rw [get_order_reserved_col,
      get_order_eq_of_orders_eq s _ order_id (change_wallet_orders _ _ _ _ _ _), ho]
    simp [hoid]
  · rw [tx_set_order_wallet_reserved,
      change_wallet_tx_success s u uid a "REFUND" note (some order_id) hu hb,
      abs_of_pos ha]

/-- One "refund then zero the used column" step of the rejection branch. -/
theorem reject_step_used {s : DB} {order_id : Int} {oc : Order} {u : User}
    (uid a : Int) (note : String)
    (ho : get_order s order_id = some oc)
    (hoid : oc.id = order_id)
    (hu : get_user s uid = some u)
    (hbal : 0 ≤ u.wallet_balance) (ha : 0 < a) :
    get_user (set_order_wallet_used (change_wallet s uid a "REFUND" note
        (some order_id)).1 order_id 0) uid =
      some ⟨u.user_id, u.wallet_balance + a⟩ ∧
    get_order (set_order_wallet_used (change_wallet s uid a "REFUND" note
        (some order_id)).1 order_id 0) order_id =
      some { oc with wallet_used_amount := 0 } ∧
    (set_order_wallet_used (change_wallet s uid a "REFUND" note
        (some order_id)).1 order_id 0).wallet_tx =
      s.wallet_tx ++ [⟨uid, some order_id, a, "REFUND", note⟩] := by
  have hb : ¬ u.wallet_balance + a < 0 := by omega
  refine ⟨?_, ?_, ?_⟩
  · rw [get_user_set_order_wallet_used]
    exact get_user_change_wallet_success s u uid a "REFUND" note (some order_id) hu hb
  · rw [get_order_used_col,
      get_order_eq_of_orders_eq s _ order_id (change_wallet_orders _ _ _ _ _ _), ho]
    simp [hoid]
  · rw [tx_set_order_wallet_used,
      change_wallet_tx_success s u uid a "REFUND" note (some order_id) hu hb,
      abs_of_pos ha]

/-- The card-part credit step of the rejection branch. -/
theorem reject_step_credit {s : DB} {u : User} (uid a : Int) (note : String)
    (oidOpt : Option Int)
    (hu : get_user s uid = some u)
    (hbal : 0 ≤ u.wallet_balance) (ha : 0 < a) :
    get_user ((change_wallet s uid a "CREDIT" note oidOpt).1) uid =
      some ⟨u.user_id, u.wallet_balance + a⟩ ∧
    (∀ oid', get_order ((change_wallet s uid a "CREDIT" note oidOpt).1) oid' =
      get_order s oid') ∧
    ((change_wallet s uid a "CREDIT" note oidOpt).1).wallet_tx =
      s.wallet_tx ++ [⟨uid, oidOpt, a, "CREDIT", note⟩] := by
  have hb : ¬ u.wallet_balance + a < 0 := by omega
  refine ⟨?_, ?_, ?_⟩
  · exact get_user_change_wallet_success s u uid a "CREDIT" note oidOpt hu hb
  · intro oid'
    exact get_order_eq_of_orders_eq s _ oid' (change_wallet_orders _ _ _ _ _ _)
  · rw [change_wallet_tx_success s u uid a "CREDIT" note oidOpt hu hb, abs_of_pos ha]

/-- What the admin rejection branch does to the owner\'s wallet and the
order row: both wallet components are refunded and zeroed, the part of
`amount_total` (gross, not payable) they do not cover is credited, and
the three ledger rows are appended exactly when their amounts are
positive. -/
theorem order_reject_refunds_spec (s : DB) (order_id : Int) (o2 : Order) (u2 : User)
    (ho2 : get_order s order_id = some o2)
    (hu2 : get_user s o2.user_id = some u2)
    (hbal : 0 ≤ u2.wallet_balance)
    (hres : 0 ≤ o2.wallet_reserved_amount)
    (husd : 0 ≤ o2.wallet_used_amount)
    (hsum : o2.wallet_reserved_amount + o2.wallet_used_amount ≤ o2.amount_total) :
    (get_user (order_reject_refunds s order_id o2) o2.user_id).map User.wallet_balance =
      some (u2.wallet_balance + o2.amount_total) ∧
    get_order (order_reject_refunds s order_id o2) order_id =
      some { o2 with wallet_reserved_amount := 0, wallet_used_amount := 0 } ∧
    (order_reject_refunds s order_id o2).wallet_tx =
      s.wallet_tx
        ++ (if o2.wallet_reserved_amount > 0 then
              [⟨o2.user_id, some order_id, o2.wallet_reserved_amount, "REFUND",
                "Order #" ++ toString order_id ++ " rejected"⟩] else [])
        ++ (if o2.wallet_used_amount > 0 then
              [⟨o2.user_id, some order_id, o2.wallet_used_amount, "REFUND",
                "Order #" ++ toString order_id ++ " rejected"⟩] else [])
        ++ (if o2.amount_total - o2.wallet_reserved_amount - o2.wallet_used_amount > 0 then
              [⟨o2.user_id, some order_id,
                o2.amount_total - o2.wallet_reserved_amount - o2.wallet_used_amount,
                "CREDIT", "Order #" ++ toString order_id ++ " card refund"⟩] else []) := by
  have hid : o2.id = order_id := get_order_key s order_id o2 ho2
  have hmax : max (o2.amount_total - o2.wallet_reserved_amount - o2.wallet_used_amount) 0 =
      o2.amount_total - o2.wallet_reserved_amount - o2.wallet_used_amount :=
    max_eq_left (by omega)
  unfold order_reject_refunds
  dsimp only
  rw [hmax]
  by_cases hR : o2.wallet_reserved_amount > 0
  · rw [if_pos hR]
    obtain ⟨h1u, h1o, h1t⟩ := reject_step_reserved o2.user_id o2.wallet_reserved_amount
      ("Order #" ++ toString order_id ++ " rejected") ho2 hid hu2 hbal hR
    by_cases hU : o2.wallet_used_amount > 0
    · rw [if_pos hU]
      obtain ⟨h2u, h2o, h2t⟩ := reject_step_used o2.user_id o2.wallet_used_amount
        ("Order #" ++ toString order_id ++ " rejected") h1o hid h1u
        (by show 0 ≤ u2.wallet_balance + o2.wallet_reserved_amount; omega) hU
      by_cases hC : o2.amount_total - o2.wallet_reserved_amount - o2.wallet_used_amount > 0
      · rw [if_pos hC]
        obtain ⟨h3u, h3o, h3t⟩ := reject_step_credit o2.user_id
          (o2.amount_total - o2.wallet_reserved_amount - o2.wallet_used_amount)
          ("Order #" ++ toString order_id ++ " card refund") (some order_id) h2u
          (by show 0 ≤ u2.wallet_balance + o2.wallet_reserved_amount + o2.wallet_used_amount; omega) hC
        refine ⟨?_, ?_, ?_⟩
        · rw [h3u]
          simp
          try omega
        · rw [h3o _, h2o]
        · rw [h3t, h2t, h1t]
          simp [hR, hU, hC]
      · rw [if_neg hC]
        refine ⟨?_, ?_, ?_⟩
        · rw [h2u]
          simp
          omega
        · rw [h2o]
        · rw [h2t, h1t]
          simp [hR, hU, hC]
    · rw [if_neg hU]
      have hU0 : o2.wallet_used_amount = 0 := by omega
      by_cases hC : o2.amount_total - o2.wallet_reserved_amount - o2.wallet_used_amount > 0
      · rw [if_pos hC]
        obtain ⟨h3u, h3o, h3t⟩ := reject_step_credit o2.user_id
          (o2.amount_total - o2.wallet_reserved_amount - o2.wallet_used_amount)
          ("Order #" ++ toString order_id ++ " card refund") (some order_id) h1u
          (by show 0 ≤ u2.wallet_balance + o2.wallet_reserved_amount; omega) hC
        refine ⟨?_, ?_, ?_⟩
        · rw [h3u]
          simp
          omega
        · rw [h3o _, h1o,
            show ({ o2 with wallet_reserved_amount := 0, wallet_used_amount := 0 } : Order) =
              { o2 with wallet_reserved_amount := 0 } from
              order_used_writeback { o2 with wallet_reserved_amount := 0 } 0
                (by show o2.wallet_used_amount = 0; omega)]
        · rw [h3t, h1t]
          simp [hR, hU, hC]
      · rw [if_neg hC]
        refine ⟨?_, ?_, ?_⟩
        · rw [h1u]
          simp
          omega
        · rw [h1o,
            show ({ o2 with wallet_reserved_amount := 0, wallet_used_amount := 0 } : Order) =
              { o2 with wallet_reserved_amount := 0 } from
              order_used_writeback { o2 with wallet_reserved_amount := 0 } 0
                (by show o2.wallet_used_amount = 0; omega)]
        · rw [h1t]
          simp [hR, hU, hC]
  · rw [if_neg hR]
    have hR0 : o2.wallet_reserved_amount = 0 := by omega
    by_cases hU : o2.wallet_used_amount > 0
    · rw [if_pos hU]
      obtain ⟨h2u, h2o, h2t⟩ := reject_step_used o2.user_id o2.wallet_used_amount
        ("Order #" ++ toString order_id ++ " rejected") ho2 hid hu2 hbal hU
      by_cases hC : o2.amount_total - o2.wallet_reserved_amount - o2.wallet_used_amount > 0
      · rw [if_pos hC]
        obtain ⟨h3u, h3o, h3t⟩ := reject_step_credit o2.user_id
          (o2.amount_total - o2.wallet_reserved_amount - o2.wallet_used_amount)
          ("Order #" ++ toString order_id ++ " card refund") (some order_id) h2u
          (by show 0 ≤ u2.wallet_balance + o2.wallet_used_amount; omega) hC
        refine ⟨?_, ?_, ?_⟩
        · rw [h3u]
          simp
          omega
        · rw [h3o _, h2o,
            show ({ o2 with wallet_reserved_amount := 0, wallet_used_amount := 0 } : Order) =
              { o2 with wallet_used_amount := 0 } from by
              rw [show ({ o2 with wallet_reserved_amount := 0, wallet_used_amount := 0 } : Order) =
                { { o2 with wallet_used_amount := 0 } with wallet_reserved_amount := 0 } from rfl,
                order_reserved_writeback _ _ (by show o2.wallet_reserved_amount = 0; omega)]]
        · rw [h3t, h2t]
          simp [hR, hU, hC]
      · rw [if_neg hC]
        refine ⟨?_, ?_, ?_⟩
        · rw [h2u]
          simp
          omega
        · rw [h2o,
            show ({ o2 with wallet_reserved_amount := 0, wallet_used_amount := 0 } : Order) =
              { o2 with wallet_used_amount := 0 } from by
              rw [show ({ o2 with wallet_reserved_amount := 0, wallet_used_amount := 0 } : Order) =
                { { o2 with wallet_used_amount := 0 } with wallet_reserved_amount := 0 } from rfl,
                order_reserved_writeback _ _ (by show o2.wallet_reserved_amount = 0; omega)]]
        · rw [h2t]
          simp [hR, hU, hC]
    · rw [if_neg hU]
      have hU0 : o2.wallet_used_amount = 0 := by omega
      by_cases hC : o2.amount_total - o2.wallet_reserved_amount - o2.wallet_used_amount > 0
      · rw [if_pos hC]
        obtain ⟨h3u, h3o, h3t⟩ := reject_step_credit o2.user_id
          (o2.amount_total - o2.wallet_reserved_amount - o2.wallet_used_amount)
          ("Order #" ++ toString order_id ++ " card refund") (some order_id) hu2 hbal hC
        refine ⟨?_, ?_, ?_⟩
        · rw [h3u]
          simp
          omega
        · rw [h3o _, ho2,
            show ({ o2 with wallet_reserved_amount := 0, wallet_used_amount := 0 } : Order) = o2 from by
              rw [show ({ o2 with wallet_reserved_amount := 0, wallet_used_amount := 0 } : Order) =
                { { o2 with wallet_used_amount := 0 } with wallet_reserved_amount := 0 } from rfl,
                order_reserved_writeback _ _ (by show o2.wallet_reserved_amount = 0; omega),
                order_used_writeback _ _ hU0]]
        · rw [h3t]
          simp [hR, hU, hC]
      · rw [if_neg hC]
        refine ⟨?_, ?_, ?_⟩
        · rw [hu2]
          simp
          omega
        · rw [ho2,
            show ({ o2 with wallet_reserved_amount := 0, wallet_used_amount := 0 } : Order) = o2 from by
              rw [show ({ o2 with wallet_reserved_amount := 0, wallet_used_amount := 0 } : Order) =
                { { o2 with wallet_used_amount := 0 } with wallet_reserved_amount := 0 } from rfl,
                order_reserved_writeback _ _ (by show o2.wallet_reserved_amount = 0; omega),
                order_used_writeback _ _ hU0]]
        · simp [hR, hU, hC]

/-- For an existing, not-yet-rejected order with a real owner, the
admin `status → REJECTED` action is exactly: rewrite the status, then
run the refund branch on the updated row. -/
theorem order_detail_update_rejected_eq (s : DB) (order_id : Int) (o : Order)
    (ho : get_order s order_id = some o)
    (hst : o.status ≠ "REJECTED")
    (huid : o.user_id ≠ 0) :
    order_detail_update_status s order_id "REJECTED" =
      order_reject_refunds
        (update_order_row s order_id (fun x => { x with status := "REJECTED" }))
        order_id { o with status := "REJECTED" } := by
  have hid : o.id = order_id := get_order_key s order_id o ho
  have hsos := set_order_status_not_paid s order_id "REJECTED" (by decide)
  have hupd : get_order (update_order_row s order_id
      (fun x => { x with status := "REJECTED" })) order_id =
      some { o with status := "REJECTED" } := by
    rw [get_order_status_col, ho]
    simp [hid]
  unfold order_detail_update_status
  simp only [ho]
  split
  · next h => exact absurd h.1 (by decide)
  · split
    · next h => exact absurd h (by decide)
    · split
      · next h => exact absurd h (by decide)
      · have h2 : ¬(o.status ≠ "REJECTED" ∧ "REJECTED" ∈ paid_statuses) :=
          fun h => absurd h.2 (by decide)
        rw [if_neg h2, hsos]
        simp only [hupd]
        rw [if_pos ⟨hst, huid, trivial⟩]

/-- C4 (counterexample): on a gross-100 order carrying a 10 discount and
no wallet funds, rejection credits the full 100 to the wallet although
the payable amount (`amount_total − discount_amount`) is only 90 — the
card part is computed from `amount_total`, not from the payable amount. -/
theorem order_reject_refund_cex :
    get_order_payable_amount (get_order exC4_s 1) = 90 ∧
    (get_user exC4_s 7).map User.wallet_balance = some 0 ∧
    (get_user (order_detail_update_status exC4_s 1 "REJECTED") 7).map
      User.wallet_balance = some 100 := by
  refine ⟨by decide, by decide, by decide⟩

/-- C4 (amended): on rejection, `wallet_reserved_amount` and
`wallet_used_amount` are each refunded via `REFUND` and reset to 0, and
the portion of the GROSS `amount_total` (not the discounted payable
amount) they do not cover is credited as `CREDIT` — so the owner's
wallet rises by exactly `amount_total`, which exceeds the payable amount
by `discount_amount` whenever a discount was applied. -/
theorem order_reject_refunds_gross (s : DB) (order_id : Int) (o : Order) (u : User)
    (ho : get_order s order_id = some o)
    (hst : o.status ≠ "REJECTED")
    (hu : get_user s o.user_id = some u)
    (huid : o.user_id ≠ 0)
    (hbal : 0 ≤ u.wallet_balance)
    (hres : 0 ≤ o.wallet_reserved_amount)
    (husd : 0 ≤ o.wallet_used_amount)
    (hsum : o.wallet_reserved_amount + o.wallet_used_amount ≤ o.amount_total) :
    (get_user (order_detail_update_status s order_id "REJECTED") o.user_id).map
        User.wallet_balance = some (u.wallet_balance + o.amount_total) ∧
    ∃ o', get_order (order_detail_update_status s order_id "REJECTED") order_id =
        some o' ∧ o'.status = "REJECTED" ∧ o'.wallet_reserved_amount = 0 ∧
        o'.wallet_used_amount = 0 := by
  rw [order_detail_update_rejected_eq s order_id o ho hst huid]
  have hupd : get_order (update_order_row s order_id
      (fun x => { x with status := "REJECTED" })) order_id =
      some { o with status := "REJECTED" } := by
    rw [get_order_status_col, ho]
    simp [get_order_key s order_id o ho]
  have hu1 : get_user (update_order_row s order_id
      (fun x => { x with status := "REJECTED" })) o.user_id = some u := hu
  obtain ⟨ha, hb, _⟩ := order_reject_refunds_spec _ order_id _ u hupd hu1 hbal hres husd hsum
  exact ⟨ha, _, hb, rfl, rfl, rfl⟩

theorem order_reject_refunds_gross_witness :
    (get_user (order_detail_update_status exC4_s 1 "REJECTED") 7).map
      User.wallet_balance = some 100 := by
  have h := order_reject_refunds_gross exC4_s 1
    { baseOrder with
      status := "IN_PROGRESS", price := 100,
      amount_total := 100, discount_amount := 10 } ⟨7, 0⟩
    (by decide) (by decide) (by decide) (by decide) (by decide) (by decide)
    (by decide) (by decide)
  exact h.1

/-! ### C5 — the expiry sweeper -/

theorem get_order_status_col_other (s : DB) (order_id : Int) (st : String)
    (order_id' : Int) (h : order_id' ≠ order_id) :
    get_order (update_order_row s order_id (fun o => { o with status := st }))
      order_id' = get_order s order_id' :=
  get_order_update_order_row_other s order_id (fun o => { o with status := st })
    (fun _ => rfl) order_id' h

theorem get_order_reserved_col_other (s : DB) (order_id a order_id' : Int)
    (h : order_id' ≠ order_id) :
    get_order (set_order_wallet_reserved s order_id a) order_id' =
      get_order s order_id' :=
  get_order_update_order_row_other s order_id
    (fun o => { o with wallet_reserved_amount := a }) (fun _ => rfl) order_id' h

/-- Sweeping an unrelated order does not touch this order, this user,
and only appends to the ledger. -/
theorem expire_one_frame (s : DB) (x : Order) (order_id uid : Int)
    (hxid : x.id ≠ order_id) (hxuid : x.user_id ≠ uid) :
    get_order (expire_one s x) order_id = get_order s order_id ∧
    get_user (expire_one s x) uid = get_user s uid ∧
    ∃ ts, (expire_one s x).wallet_tx = s.wallet_tx ++ ts := by
  have hne : order_id ≠ x.id := fun e => hxid e.symm
  unfold expire_one
  dsimp only
  rw [set_order_status_not_paid _ _ _ (by decide)]
  by_cases hr : x.wallet_reserved_amount > 0
  · rw [if_pos hr]
    refine ⟨?_, ?_, ?_⟩
    · rw [get_order_status_col_other _ _ _ _ hne,
        get_order_reserved_col_other _ _ _ _ hne,
        get_order_eq_of_orders_eq _ _ _ (change_wallet_orders _ _ _ _ _ _)]
    · rw [get_user_update_order_row, get_user_set_order_wallet_reserved,
        get_user_change_wallet_other _ _ _ _ _ _ _ (Ne.symm hxuid)]
    · rw [tx_update_order_row, tx_set_order_wallet_reserved]
      exact change_wallet_tx_extend _ _ _ _ _ _
  · rw [if_neg hr]
    exact ⟨get_order_status_col_other _ _ _ _ hne, rfl,
      ⟨[], by rw [tx_update_order_row, List.append_nil]⟩⟩

/-- Sweeping a list of unrelated orders is invisible to this order and
user. -/
theorem foldl_expire_frame (l : List Order) (s : DB) (order_id uid : Int)
    (h : ∀ x ∈ l, x.id ≠ order_id ∧ x.user_id ≠ uid) :
    get_order (l.foldl expire_one s) order_id = get_order s order_id ∧
    get_user (l.foldl expire_one s) uid = get_user s uid ∧
    ∃ ts, (l.foldl expire_one s).wallet_tx = s.wallet_tx ++ ts := by
  induction l generalizing s with
  | nil => exact ⟨rfl, rfl, ⟨[], by simp⟩⟩
  | cons a t ih =>
    obtain ⟨h1, h2, ts1, hts1⟩ := expire_one_frame s a order_id uid
      (h a (List.mem_cons_self a t)).1 (h a (List.mem_cons_self a t)).2
    obtain ⟨g1, g2, ts2, hts2⟩ := ih (expire_one s a)
      (fun x hx => h x (List.mem_cons_of_mem a hx))
    refine ⟨g1.trans h1, g2.trans h2, ⟨ts1 ++ ts2, ?_⟩⟩
    rw [List.foldl_cons, hts2, hts1, List.append_assoc]

/-- With unique ids, a stored row is fetched back verbatim. -/
theorem get_order_of_mem_nodup (s : DB) (o : Order)
    (hnodup : (s.orders.map Order.id).Nodup) (hm : o ∈ s.orders) :
    get_order s o.id = some o := by
  unfold get_order
  cases hf : s.orders.find? (fun x => x.id = o.id) with
  | none =>
    have := List.find?_eq_none.mp hf o hm
    simp at this
  | some v =>
    have hvm := List.mem_of_find?_eq_some hf
    have hvid : v.id = o.id := by simpa using List.find?_some hf
    have : o = v := List.inj_on_of_nodup_map hnodup hm hvm hvid.symm
    rw [this]

/-- Sweeping the overdue order itself: status `EXPIRED`, reservation
zeroed, balance refunded, one `REFUND` row appended when the
reservation was positive. -/
theorem expire_one_spec (s : DB) (o : Order) (u : User)
    (ho : get_order s o.id = some o)
    (hu : get_user s o.user_id = some u)
    (hres : 0 ≤ o.wallet_reserved_amount)
    (hbal : 0 ≤ u.wallet_balance) :
    get_order (expire_one s o) o.id =
      some { o with status := "EXPIRED", wallet_reserved_amount := 0 } ∧
    (get_user (expire_one s o) o.user_id).map User.wallet_balance =
      some (u.wallet_balance + o.wallet_reserved_amount) ∧
    (expire_one s o).wallet_tx = s.wallet_tx ++
      (if o.wallet_reserved_amount > 0 then
        [⟨o.user_id, some o.id, o.wallet_reserved_amount, "REFUND",
          "Expire order #" ++ toString o.id⟩] else []) := by
  unfold expire_one
  dsimp only
  rw [set_order_status_not_paid _ _ _ (by decide)]
  by_cases hr : o.wallet_reserved_amount > 0
  · rw [if_pos hr]
    obtain ⟨g1u, g1o, g1t⟩ := reject_step_reserved o.user_id o.wallet_reserved_amount
      ("Expire order #" ++ toString o.id) ho rfl hu hbal hr
    refine ⟨?_, ?_, ?_⟩
    · rw [get_order_status_col, g1o]
      simp
    · rw [get_user_update_order_row, g1u]
      rfl
    · rw [tx_update_order_row, g1t, if_pos hr]
  · rw [if_neg hr]
    have hr0 : o.wallet_reserved_amount = 0 := by omega
    refine ⟨?_, ?_, ?_⟩
    · rw [get_order_status_col, ho,
        show ({ o with status := "EXPIRED", wallet_reserved_amount := 0 } : Order) =
          { o with status := "EXPIRED" } from
          order_reserved_writeback { o with status := "EXPIRED" } 0
            (by show o.wallet_reserved_amount = 0; omega)]
      simp
    · rw [get_user_update_order_row, hu]
      simp
      omega
    · rw [tx_update_order_row, if_neg hr]
      simp

/-- C5: one sweep leaves every overdue awaiting-payment order in
`EXPIRED` with a zero reservation, refunds a positive reservation to the
owner with a `REFUND` row, and reports the order in the returned list. -/
theorem expire_orders_and_refund_spec (s : DB) (now : Int) (o : Order) (u : User)
    (hm : o ∈ s.orders)
    (hdue : expire_due now o = true)
    (hnodup : (s.orders.map Order.id).Nodup)
    (hres : 0 ≤ o.wallet_reserved_amount)
    (hu : get_user s o.user_id = some u)
    (hbal : 0 ≤ u.wallet_balance)
    (huniq : ∀ x ∈ s.orders, expire_due now x = true → x.id ≠ o.id →
      x.user_id ≠ o.user_id) :
    o ∈ (expire_orders_and_refund s now).2 ∧
    get_order (expire_orders_and_refund s now).1 o.id =
      some { o with status := "EXPIRED", wallet_reserved_amount := 0 } ∧
    (get_user (expire_orders_and_refund s now).1 o.user_id).map User.wallet_balance =
      some (u.wallet_balance + o.wallet_reserved_amount) ∧
    (0 < o.wallet_reserved_amount →
      (⟨o.user_id, some o.id, o.wallet_reserved_amount, "REFUND",
        "Expire order #" ++ toString o.id⟩ : WalletTx) ∈
        (expire_orders_and_refund s now).1.wallet_tx) := by
  have hmem : o ∈ s.orders.filter (expire_due now) := List.mem_filter.mpr ⟨hm, hdue⟩
  have hndel : ((s.orders.filter (expire_due now)).map Order.id).Nodup :=
    List.Nodup.sublist (List.Sublist.map Order.id (List.filter_sublist s.orders)) hnodup
  obtain ⟨l1, l2, hel⟩ := List.append_of_mem hmem
  have hnd2 := hel ▸ hndel
  rw [List.map_append, List.map_cons, List.nodup_append] at hnd2
  obtain ⟨hnd1, hndc, hdisj⟩ := hnd2
  have hno2 : o.id ∉ l2.map Order.id := (List.nodup_cons.mp hndc).1
  have hfr : ∀ x ∈ l1 ++ l2, x.id ≠ o.id ∧ x.user_id ≠ o.user_id := by
    intro x hx
    have hxel : x ∈ s.orders.filter (expire_due now) := by
      rw [hel]
      rcases List.mem_append.mp hx with h | h
      · exact List.mem_append.mpr (Or.inl h)
      · exact List.mem_append.mpr (Or.inr (List.mem_cons_of_mem _ h))
    have hxid : x.id ≠ o.id := by
      intro e
      rcases List.mem_append.mp hx with h | h
      · exact hdisj (List.mem_map_of_mem Order.id h)
          (by rw [e]; exact List.mem_cons_self _ _)
      · exact hno2 (e ▸ List.mem_map_of_mem Order.id h)
    exact ⟨hxid, huniq x (List.mem_filter.mp hxel).1
      (List.mem_filter.mp hxel).2 hxid⟩
  have hfold : (s.orders.filter (expire_due now)).foldl expire_one s =
      l2.foldl expire_one (expire_one (l1.foldl expire_one s) o) := by
    rw [hel, List.foldl_append, List.foldl_cons]
  obtain ⟨f1o, f1u, _⟩ := foldl_expire_frame l1 s o.id o.user_id
    (fun x hx => hfr x (List.mem_append.mpr (Or.inl hx)))
  have hmo : get_order (l1.foldl expire_one s) o.id = some o := by
    rw [f1o]
    exact get_order_of_mem_nodup s o hnodup hm
  have hmu : get_user (l1.foldl expire_one s) o.user_id = some u := by rw [f1u, hu]
  obtain ⟨e1o, e1u, e1t⟩ := expire_one_spec (l1.foldl expire_one s) o u hmo hmu hres hbal
  obtain ⟨f2o, f2u, ts2, hts2⟩ := foldl_expire_frame l2
    (expire_one (l1.foldl expire_one s) o) o.id o.user_id
    (fun x hx => hfr x (List.mem_append.mpr (Or.inr hx)))
  refine ⟨hmem, ?_, ?_, ?_⟩
  · show get_order ((s.orders.filter (expire_due now)).foldl expire_one s) o.id = _
    rw [hfold, f2o, e1o]
  · show (get_user ((s.orders.filter (expire_due now)).foldl expire_one s)
      o.user_id).map User.wallet_balance = _
    rw [hfold, f2u]
    exact e1u
  · intro hpos
    show _ ∈ ((s.orders.filter (expire_due now)).foldl expire_one s).wallet_tx
    rw [hfold, hts2, e1t, if_pos hpos]
    exact List.mem_append_left _ (List.mem_append_right _ (List.mem_singleton.mpr rfl))

theorem expire_orders_and_refund_spec_witness :
    (get_order (expire_orders_and_refund exC5_s 20).1 1).map Order.status =
      some "EXPIRED" ∧
    (get_user (expire_orders_and_refund exC5_s 20).1 7).map User.wallet_balance =
      some 80 := by
  have h := expire_orders_and_refund_spec exC5_s 20
    { baseOrder with
      price := 100, amount_total := 100,
      wallet_reserved_amount := 30, await_deadline := some 10 } ⟨7, 50⟩
    (by decide) (by decide) (by decide) (by decide) (by decide) (by decide)
    (by decide)
  exact ⟨(congrArg (Option.map Order.status) h.2.1).trans rfl,
    h.2.2.1.trans (by decide)⟩

/-! ### C7 — cashback idempotence -/

/-- C7: a second consecutive `apply_order_cashback` credits `0` and
leaves the store exactly as the first call left it — the first call
records the computed total in `cashback_applied_amount`, so the delta
of the second call is never positive. -/
theorem apply_order_cashback_idempotent (s : DB) (order_id : Int) :
    apply_order_cashback ((apply_order_cashback s order_id).1) order_id =
      ((apply_order_cashback s order_id).1, 0) := by
  generalize hres : apply_order_cashback s order_id = res
  unfold apply_order_cashback at hres
  cases ho : get_order s order_id with
  | none =>
    rw [ho] at hres
    dsimp only at hres
    subst hres
    show apply_order_cashback s order_id = (s, 0)
    unfold apply_order_cashback
    rw [ho]
  | some o =>
    rw [ho] at hres
    dsimp only at hres
    have hid : o.id = order_id := get_order_key s order_id o ho
    by_cases hp : max o.cashback_percent 0 ≤ 0
    · rw [if_pos hp] at hres
      subst hres
      show apply_order_cashback s order_id = (s, 0)
      unfold apply_order_cashback
      rw [ho]
      dsimp only
      rw [if_pos hp]
    · rw [if_neg hp] at hres
      by_cases hrem : max (max (Int.fdiv (order_base_amount o * max o.cashback_percent 0) 100) 0
          - o.cashback_applied_amount) 0 ≤ 0 ∨ o.user_id = 0
      · rw [if_pos hrem] at hres
        subst hres
        show apply_order_cashback s order_id = (s, 0)
        unfold apply_order_cashback
        rw [ho]
        dsimp only
        rw [if_neg hp, if_pos hrem]
      · rw [if_neg hrem] at hres
        by_cases hcw : (change_wallet s o.user_id
            (max (max (Int.fdiv (order_base_amount o * max o.cashback_percent 0) 100) 0
              - o.cashback_applied_amount) 0) "CREDIT"
            ("CASHBACK:ORDER:" ++ toString order_id) (some order_id)).2 = true
        · rw [if_pos hcw] at hres
          subst hres
          dsimp only
          have ho2 : get_order (update_order_row (change_wallet s o.user_id
              (max (max (Int.fdiv (order_base_amount o * max o.cashback_percent 0) 100) 0
                - o.cashback_applied_amount) 0) "CREDIT"
              ("CASHBACK:ORDER:" ++ toString order_id) (some order_id)).1 order_id
              (fun o1 => { o1 with cashback_applied_amount := max (Int.fdiv (order_base_amount o * max o.cashback_percent 0) 100) 0 }))
              order_id = some { o with cashback_applied_amount := max (Int.fdiv (order_base_amount o * max o.cashback_percent 0) 100) 0 } := by
            rw [get_order_cashback_col,
              get_order_eq_of_orders_eq _ _ _ (change_wallet_orders _ _ _ _ _ _), ho]
            simp [hid]
          unfold apply_order_cashback
          rw [ho2]
          dsimp only
          rw [if_neg hp]
          have hbase : order_base_amount { o with cashback_applied_amount := max (Int.fdiv (order_base_amount o * max o.cashback_percent 0) 100) 0 } =
              order_base_amount o := rfl
          rw [hbase]
          rw [if_pos (Or.inl (by simp))]
        · rw [if_neg hcw] at hres
          subst hres
          dsimp only
          have hfail : (change_wallet s o.user_id
              (max (max (Int.fdiv (order_base_amount o * max o.cashback_percent 0) 100) 0
                - o.cashback_applied_amount) 0) "CREDIT"
              ("CASHBACK:ORDER:" ++ toString order_id) (some order_id)).2 = false := by
            simpa using hcw
          have hst := change_wallet_fail_state s o.user_id
            (max (max (Int.fdiv (order_base_amount o * max o.cashback_percent 0) 100) 0
              - o.cashback_applied_amount) 0) "CREDIT"
            ("CASHBACK:ORDER:" ++ toString order_id) (some order_id) hfail
          rw [hst]
          unfold apply_order_cashback
          rw [ho]
          dsimp only
          rw [if_neg hp, if_neg hrem, if_neg hcw, hst]

theorem redeem_coupon_per_user_limit_witness :
    redeem_coupon exC6_s 0 7 " ab " =
      (exC6_s, false, none, some "سقف استفاده شما از این کد تکمیل شده است.") :=
  redeem_coupon_per_user_limit exC6_s 0 7 " ab "
    ⟨1, "AB", 5, 0, 1, 1, true, none⟩ ⟨1, 1, 7, 5, 1⟩
    (by decide) (by decide) (by decide) (by decide) (by decide) (by decide)
    (by decide) (by decide) (by decide)

/-! ### C1 — the wallet ledger invariant -/

theorem signed_amount_credit (x : Int) : signed_amount "CREDIT" x = x := by
  unfold signed_amount
  rw [if_pos (Or.inl rfl)]

theorem signed_amount_refund (x : Int) : signed_amount "REFUND" x = x := by
  unfold signed_amount
  rw [if_pos (Or.inr rfl)]

theorem signed_amount_debit (x : Int) : signed_amount "DEBIT" x = -x := by
  unfold signed_amount
  rw [if_neg (by decide), if_pos (Or.inl rfl)]

/-- Appending one row moves the signed sum by that row's signed amount
(for its own user only). -/
theorem ledger_sum_append_one (txs : List WalletTx) (t : WalletTx) (vid : Int) :
    ledger_sum (txs ++ [t]) vid =
      ledger_sum txs vid + (if t.user_id = vid then tx_signed t else 0) := by
  unfold ledger_sum
  rw [List.filter_append, List.map_append, List.sum_append]
  congr 1
  by_cases h : t.user_id = vid
  · simp [List.filter_cons, h]
  · simp [List.filter_cons, h]

/-- The invariant only mentions `users` and `wallet_tx`. -/
theorem wallet_invariant_of_eq (s s' : DB) (h : wallet_invariant s)
    (hu : s'.users = s.users) (ht : s'.wallet_tx = s.wallet_tx) :
    wallet_invariant s' := by
  intro v hv
  rw [ht]
  exact h v (hu ▸ hv)

theorem inv_update_order_row (s : DB) (order_id : Int) (f : Order → Order)
    (h : wallet_invariant s) : wallet_invariant (update_order_row s order_id f) := h

theorem inv_set_order_wallet_reserved (s : DB) (order_id amount : Int)
    (h : wallet_invariant s) :
    wallet_invariant (set_order_wallet_reserved s order_id amount) := h

theorem inv_set_order_wallet_used (s : DB) (order_id amount : Int)
    (h : wallet_invariant s) :
    wallet_invariant (set_order_wallet_used s order_id amount) := h

/-- A `change_wallet` call whose `delta` sign agrees with its `tx_type`
polarity preserves the ledger invariant (on both the success and the
failure path). -/
theorem inv_change_wallet (s : DB) (user_id delta : Int) (tx_type note : String)
    (order_id : Option Int) (hty : signed_amount tx_type |delta| = delta)
    (h : wallet_invariant s) :
    wallet_invariant (change_wallet s user_id delta tx_type note order_id).1 := by
  unfold change_wallet
  cases hu : get_user s user_id with
  | none => exact h
  | some u =>
    dsimp only
    split
    · exact h
    · have huid : u.user_id = user_id := get_user_key s user_id u hu
      have hbu : u.wallet_balance = ledger_sum s.wallet_tx user_id := by
        rw [← huid]
        exact h u (get_user_mem s user_id u hu)
      intro v hv
      obtain ⟨w, hw, hwv⟩ := List.mem_map.mp hv
      subst hwv
      have hbw := h w hw
      rw [show (insert_wallet_tx (update_user_balance s user_id
          (u.wallet_balance + delta))
          { user_id := user_id, order_id := order_id, amount := |delta|,
            type := tx_type, note := note }).wallet_tx =
          s.wallet_tx ++
            [{ user_id := user_id, order_id := order_id, amount := |delta|,
               type := tx_type, note := note }] from rfl,
        ledger_sum_append_one]
      by_cases hwid : w.user_id = user_id
      · rw [if_pos hwid]
        dsimp only
        rw [if_pos hwid.symm, hwid, hbu]
        exact (congrArg (fun x => ledger_sum s.wallet_tx user_id + x) hty).symm
      · rw [if_neg hwid]
        dsimp only
        have hne : user_id ≠ w.user_id := fun e => hwid e.symm
        rw [if_neg hne, add_zero]
        exact hbw

theorem inv_change_wallet_credit (s : DB) (user_id d : Int) (note : String)
    (order_id : Option Int) (hd : 0 ≤ d) (h : wallet_invariant s) :
    wallet_invariant (change_wallet s user_id d "CREDIT" note order_id).1 :=
  inv_change_wallet s user_id d "CREDIT" note order_id
    (by rw [signed_amount_credit]; exact abs_of_nonneg hd) h

theorem inv_change_wallet_refund (s : DB) (user_id d : Int) (note : String)
    (order_id : Option Int) (hd : 0 ≤ d) (h : wallet_invariant s) :
    wallet_invariant (change_wallet s user_id d "REFUND" note order_id).1 :=
  inv_change_wallet s user_id d "REFUND" note order_id
    (by rw [signed_amount_refund]; exact abs_of_nonneg hd) h

theorem inv_change_wallet_debit (s : DB) (user_id a : Int) (note : String)
    (order_id : Option Int) (ha : 0 ≤ a) (h : wallet_invariant s) :
    wallet_invariant (change_wallet s user_id (-a) "DEBIT" note order_id).1 :=
  inv_change_wallet s user_id (-a) "DEBIT" note order_id
    (by rw [signed_amount_debit, abs_neg, abs_of_nonneg ha]) h

theorem inv_apply_order_cashback (s : DB) (order_id : Int)
    (h : wallet_invariant s) : wallet_invariant (apply_order_cashback s order_id).1 := by
  unfold apply_order_cashback
  dsimp only
  repeat' split
  all_goals first
    | exact h
    | exact inv_update_order_row _ _ _
        (inv_change_wallet_credit _ _ _ _ _ (le_max_right _ 0) h)
    | exact inv_change_wallet_credit _ _ _ _ _ (le_max_right _ 0) h

theorem inv_set_order_status (s : DB) (order_id : Int) (status : String)
    (h : wallet_invariant s) : wallet_invariant (set_order_status s order_id status) := by
  unfold set_order_status
  dsimp only
  repeat' split
  all_goals first
    | exact inv_apply_order_cashback _ _ (inv_update_order_row _ _ _ h)
    | exact inv_update_order_row _ _ _ h

theorem inv_redeem_coupon (s : DB) (now user_id : Int) (code : String)
    (h : wallet_invariant s) : wallet_invariant (redeem_coupon s now user_id code).1 := by
  unfold redeem_coupon
  dsimp only
  repeat' split
  all_goals first
    | exact h
    | exact wallet_invariant_of_eq _ _
        (inv_change_wallet_credit _ _ _ _ _ (by omega) h) rfl rfl
    | exact inv_change_wallet_credit _ _ _ _ _ (by omega) h

theorem inv_apply_discount (s : DB) (now order_id user_id : Int) (code : String)
    (h : wallet_invariant s) :
    wallet_invariant (apply_discount_to_order s now order_id user_id code).1 := by
  unfold apply_discount_to_order
  cases ho : get_order s order_id with
  | none => exact h
  | some order =>
    dsimp only
    by_cases hA : order.user_id ≠ user_id
    · rw [if_pos hA]
      exact h
    · rw [if_neg hA]
      by_cases hB : order.status ≠ "AWAITING_PAYMENT"
      · rw [if_pos hB]
        exact h
      · rw [if_neg hB]
        by_cases hC : py_strip order.discount_code ≠ ""
        · rw [if_pos hC]
          exact h
        · rw [if_neg hC]
          by_cases hD : normalize_code code = ""
          · rw [if_pos hD]
            exact h
          · rw [if_neg hD]
            cases hd : get_discount_by_code s (normalize_code code) with
            | none => exact h
            | some discount =>
              dsimp only
              by_cases hE : ¬ discount.is_active = true
              · rw [if_pos hE]
                exact h
              · rw [if_neg hE]
                by_cases hF : discount.amount ≤ 0
                · rw [if_pos hF]
                  exact h
                · rw [if_neg hF]
                  by_cases hG : discount.usage_limit ≠ 0 ∧
                      discount.used_count ≥ discount.usage_limit
                  · rw [if_pos hG]
                    exact h
                  · rw [if_neg hG]
                    by_cases hH : promo_expired now discount.expires_at = true
                    · rw [if_pos hH]
                      exact h
                    · rw [if_neg hH]
                      cases hp : order_product_id (some order) with
                      | none => exact h
                      | some product_id =>
                        dsimp only
                        by_cases hI : ¬ discount.applies_all = true ∧
                            discount.product_ids ≠ [] ∧
                            product_id ∉ discount.product_ids
                        · rw [if_pos hI]
                          exact h
                        · rw [if_neg hI]
                          by_cases hJ : (if discount.usage_limit_per_user = 0
                                then 1 else discount.usage_limit_per_user) ≠ 0 ∧
                              (match s.discount_redemptions.find? (fun r =>
                                  r.discount_id = discount.id ∧ r.user_id = user_id) with
                                | some r => r.times_used
                                | none => 0) ≥
                                (if discount.usage_limit_per_user = 0
                                  then 1 else discount.usage_limit_per_user)
                          · rw [if_pos hJ]
                            exact h
                          · rw [if_neg hJ]
                            cases hr : s.discount_redemptions.find? (fun r =>
                                r.discount_id = discount.id ∧ r.user_id = user_id) with
                            | none => exact wallet_invariant_of_eq _ _ h rfl rfl
                            | some red => exact wallet_invariant_of_eq _ _ h rfl rfl

theorem inv_expire_one (s : DB) (o : Order) (h : wallet_invariant s) :
    wallet_invariant (expire_one s o) := by
  unfold expire_one
  dsimp only
  apply inv_set_order_status
  split
  · exact inv_set_order_wallet_reserved _ _ _
      (inv_change_wallet_refund _ _ _ _ _ (by omega) h)
  · exact h

theorem inv_foldl_expire (l : List Order) (s : DB) (h : wallet_invariant s) :
    wallet_invariant (l.foldl expire_one s) := by
  induction l generalizing s with
  | nil => exact h
  | cons a t ih => exact ih (expire_one s a) (inv_expire_one s a h)

theorem inv_expire_orders_and_refund (s : DB) (now : Int) (h : wallet_invariant s) :
    wallet_invariant (expire_orders_and_refund s now).1 := by
  unfold expire_orders_and_refund
  dsimp only
  exact inv_foldl_expire _ _ h

theorem inv_user_wallet_adjust (s : DB) (user_id : Int) (action : String)
    (amount : Int) (note : String) (hact : action ≠ "reserve")
    (h : wallet_invariant s) :
    wallet_invariant (user_wallet_adjust s user_id action amount note).1 := by
  unfold user_wallet_adjust
  cases hu : get_user s user_id with
  | none => exact h
  | some u =>
    dsimp only
    by_cases hneg : amount ≤ 0
    · rw [if_pos hneg]
      exact h
    · rw [if_neg hneg]
      by_cases h1 : action = "debit"
      · rw [if_pos h1]
        exact inv_change_wallet_debit s user_id amount note none (by omega) h
      · rw [if_neg h1]
        by_cases h2 : action = "refund"
        · rw [if_pos h2]
          exact inv_change_wallet_refund s user_id amount note none (by omega) h
        · rw [if_neg h2, if_neg hact]
          exact inv_change_wallet_credit s user_id amount note none (by omega) h

theorem inv_ite_db (c : Prop) [Decidable c] (a b : DB) (ha : wallet_invariant a)
    (hb : wallet_invariant b) : wallet_invariant (if c then a else b) := by
  split
  · exact ha
  · exact hb

/-- One guarded wallet-refund-and-zero step of the rejection branch. -/
theorem inv_reserved_step (t : DB) (uid ra oid2 : Int) (note : String)
    (oid : Option Int) (h : wallet_invariant t) :
    wallet_invariant (if ra > 0 then
      set_order_wallet_reserved (change_wallet t uid ra "REFUND" note oid).1
        oid2 0 else t) := by
  split
  · exact inv_set_order_wallet_reserved _ _ _
      (inv_change_wallet_refund _ _ _ _ _ (by omega) h)
  · exact h

theorem inv_used_step (t : DB) (uid ua oid2 : Int) (note : String)
    (oid : Option Int) (h : wallet_invariant t) :
    wallet_invariant (if ua > 0 then
      set_order_wallet_used (change_wallet t uid ua "REFUND" note oid).1
        oid2 0 else t) := by
  split
  · exact inv_set_order_wallet_used _ _ _
      (inv_change_wallet_refund _ _ _ _ _ (by omega) h)
  · exact h

theorem inv_card_step (t : DB) (uid cp : Int) (note : String)
    (oid : Option Int) (hcp : 0 ≤ cp) (h : wallet_invariant t) :
    wallet_invariant (if cp > 0 then
      (change_wallet t uid cp "CREDIT" note oid).1 else t) := by
  split
  · exact inv_change_wallet_credit _ _ _ _ _ hcp h
  · exact h

theorem inv_order_reject_refunds (s : DB) (order_id : Int) (updated : Order)
    (h : wallet_invariant s) :
    wallet_invariant (order_reject_refunds s order_id updated) := by
  unfold order_reject_refunds
  dsimp only
  exact inv_card_step _ _ _ _ _ (le_max_right _ 0)
    (inv_used_step _ _ _ _ _ _ (inv_reserved_step _ _ _ _ _ _ h))

/-- The tail of the admin status handler: re-fetch the order and run the
rejection refunds when the new status is `REJECTED`. -/
theorem inv_status_finish (X : DB) (oid : Int) (P : Prop) [Decidable P]
    (h : wallet_invariant X) :
    wallet_invariant (match get_order X oid with
      | none => X
      | some u => if P then order_reject_refunds X oid u else X) := by
  cases hg : get_order X oid with
  | none => exact h
  | some u =>
    dsimp only
    split
    · exact inv_order_reject_refunds _ _ _ h
    · exact h

theorem inv_order_detail_update_status (s : DB) (order_id : Int)
    (status_value : String) (h : wallet_invariant s) :
    wallet_invariant (order_detail_update_status s order_id status_value) := by
  unfold order_detail_update_status
  cases ho : get_order s order_id with
  | none => exact h
  | some order =>
    dsimp only
    by_cases hG1 : status_value = "PLAN_CONFIRMED" ∧ order.status ≠ "PENDING_PLAN"
    · rw [if_pos hG1]
      exact h
    · rw [if_neg hG1]
      by_cases hG2 : (if status_value = "APPROVED" ∨ status_value = "PLAN_CONFIRMED"
          then "IN_PROGRESS" else status_value) ∉ ORDER_STATUS_KEYS
      · rw [if_pos hG2]
        exact h
      · rw [if_neg hG2]
        exact inv_status_finish _ _ _
          (inv_ite_db _ _ _
            (inv_ite_db _ _ _
              (inv_set_order_wallet_used _ _ _
                (inv_set_order_wallet_reserved _ _ _
                  (inv_ite_db _ _ _ (inv_set_order_status _ _ _ h) h)))
              (inv_ite_db _ _ _ (inv_set_order_status _ _ _ h) h))
            (inv_ite_db _ _ _ (inv_set_order_status _ _ _ h) h))

/-- Every sign-consistent public operation preserves the ledger
invariant. -/
theorem inv_store_op (s : DB) (op : StoreOp) (hop : op.signConsistent = true)
    (h : wallet_invariant s) : wallet_invariant (StoreOp.run s op) := by
  cases op with
  | changeWalletOp uid d ty note oid =>
    exact inv_change_wallet _ _ _ _ _ _
      (by simpa [StoreOp.signConsistent] using hop) h
  | redeemCouponOp now uid code => exact inv_redeem_coupon _ _ _ _ h
  | applyCashbackOp oid => exact inv_apply_order_cashback _ _ h
  | setOrderStatusOp oid st => exact inv_set_order_status _ _ _ h
  | expireSweepOp now => exact inv_expire_orders_and_refund _ _ h
  | walletAdjustOp uid action amount note =>
    exact inv_user_wallet_adjust _ _ _ _ _
      (by simpa [StoreOp.signConsistent] using hop) h
  | adminStatusOp oid sv => exact inv_order_detail_update_status _ _ _ h
  | applyDiscountOp now oid uid code => exact inv_apply_discount _ _ _ _ _ h

/-- C1: counterexample — the admin wallet-adjust `reserve` action passes
`+amount` with type `RESERVE`, so the cached balance rises while the
signed ledger sum falls: the invariant does not survive every public
operation. -/
theorem wallet_adjust_reserve_cex :
    wallet_invariant exC1_s ∧
    ¬ wallet_invariant
      (StoreOp.run exC1_s (StoreOp.walletAdjustOp 1 "reserve" 5 "hold")) := by
  decide

/-- C1 (amended): every user's cached `wallet_balance` equals
`Σ(CREDIT)+Σ(REFUND)−Σ(DEBIT)−Σ(RESERVE)` over that user's `wallet_tx`
rows, and the invariant is preserved by every sequence of public
operations whose raw `change_wallet` deltas match their transaction-type
polarity and which avoids the admin wallet-adjust `reserve` action. -/
theorem run_ops_wallet_invariant (s : DB) (ops : List StoreOp)
    (hops : ∀ op ∈ ops, op.signConsistent = true)
    (h : wallet_invariant s) : wallet_invariant (run_ops s ops) := by
  induction ops generalizing s with
  | nil => exact h
  | cons a t ih =>
    exact ih (StoreOp.run s a)
      (fun op hop => hops op (List.mem_cons_of_mem a hop))
      (inv_store_op s a (hops a (List.mem_cons_self a t)) h)

theorem run_ops_wallet_invariant_witness :
    wallet_invariant (run_ops exC1_s
      [StoreOp.walletAdjustOp 1 "add" 5 "topup",
       StoreOp.changeWalletOp 1 (-2) "DEBIT" "purchase" none]) :=
  run_ops_wallet_invariant exC1_s
    [StoreOp.walletAdjustOp 1 "add" 5 "topup",
     StoreOp.changeWalletOp 1 (-2) "DEBIT" "purchase" none]
    (by decide) (by decide)

end BotStore
